import Mathlib

/-!
Verification of the meter-reading ingestion core of the Kraken-Challenge
repository (src/meter_readings/). The Python source is shallowly embedded:
each Django model becomes a structure, the persistent store becomes an
explicit record of row lists, every parser method becomes a pure function
threading a parser-state value, and Python exceptions become an error type.
String primitives are re-implemented over character lists with structural
recursion so that every definition is executable and kernel-reducible.
-/

/- ### Python string primitives (faithful to str.strip, str.split, etc.) -/

/-- Whitespace characters recognized by Python's str.strip / str.split. -/
def pyIsSpace (c : Char) : Bool :=
  c = ' ' || c = '\t' || c = '\n' || c = '\r' || c = '\x0b' || c = '\x0c'

/-- Strip leading and trailing whitespace, as Python's str.strip(). -/
def pyStrip (s : String) : String :=
  ⟨((s.data.dropWhile pyIsSpace).reverse.dropWhile pyIsSpace).reverse⟩

/-- Helper for pySplitChar: accumulate the current field (reversed). -/
def pySplitCharAux (c : Char) : List Char → List Char → List String
  | [], acc => [⟨acc.reverse⟩]
  | x :: xs, acc =>
    if x = c then ⟨acc.reverse⟩ :: pySplitCharAux c xs []
    else pySplitCharAux c xs (x :: acc)

/-- Python's str.split(sep) for a single-character separator: keeps empty
fields, and the empty string splits to one empty field. -/
def pySplitChar (c : Char) (s : String) : List String :=
  pySplitCharAux c s.data []

/-- Helper for pySplitWs. -/
def pySplitWsAux : List Char → List Char → List String
  | [], acc => if acc.isEmpty then [] else [⟨acc.reverse⟩]
  | x :: xs, acc =>
    if pyIsSpace x then
      if acc.isEmpty then pySplitWsAux xs []
      else ⟨acc.reverse⟩ :: pySplitWsAux xs []
    else pySplitWsAux xs (x :: acc)

/-- Python's str.split() with no argument: split on whitespace runs,
dropping empty fields. -/
def pySplitWs (s : String) : List String :=
  pySplitWsAux s.data []

/-- Python's str.startswith. -/
def pyStartsWith (s pre : String) : Bool :=
  pre.data.isPrefixOf s.data

/-- Python's str.endswith. -/
def pyEndsWith (s suf : String) : Bool :=
  suf.data.reverse.isPrefixOf s.data.reverse

/-- Python's `c in s` membership test for a single character. -/
def pyContainsChar (s : String) (c : Char) : Bool :=
  s.data.contains c

/-- Helper for pyContainsSub: substring search by scanning tails. -/
def pyContainsSubAux (pat : List Char) : List Char → Bool
  | [] => pat.isPrefixOf []
  | x :: xs => pat.isPrefixOf (x :: xs) || pyContainsSubAux pat xs

/-- Python's `pat in s` membership test for a substring. -/
def pyContainsSub (s pat : String) : Bool :=
  pyContainsSubAux pat.data s.data

/-- Lower-case a string, as Python's str.lower() on ASCII input. -/
def pyToLower (s : String) : String :=
  ⟨s.data.map Char.toLower⟩

/-- Upper-case a string, as Python's str.upper() on ASCII input. -/
def pyToUpper (s : String) : String :=
  ⟨s.data.map Char.toUpper⟩

/-- Python's str.isdigit() restricted to ASCII digits (the only inputs the
repository feeds it). -/
def pyIsDigit (s : String) : Bool :=
  !s.data.isEmpty && s.data.all Char.isDigit

/-- Numeric value of a list of ASCII digit characters. -/
def digitsVal (cs : List Char) : Nat :=
  cs.foldl (fun a c => a * 10 + (c.toNat - 48)) 0

/- ### Dates and decimals -/

/-- Naive timestamp; make_aware is the identity in this embedding (one fixed
timezone). -/
structure PDateTime where
  year : Nat
  month : Nat
  day : Nat
  hour : Nat
  minute : Nat
  second : Nat
  deriving DecidableEq, Repr

/-- Days in a month, with the Gregorian leap rule, as validated by Python's
datetime.strptime. -/
def daysInMonth (y m : Nat) : Nat :=
  if m = 2 then
    if y % 4 = 0 && (y % 100 ≠ 0 || y % 400 = 0) then 29 else 28
  else if m = 4 || m = 6 || m = 9 || m = 11 then 30
  else 31

/-- Validate and build a timestamp from six numeric components. -/
def mkDateTime (y mo d h mi s : Nat) : Option PDateTime :=
  if 1 ≤ mo ∧ mo ≤ 12 ∧ 1 ≤ d ∧ d ≤ daysInMonth y mo ∧ h ≤ 23 ∧ mi ≤ 59 ∧ s ≤ 59 then
    some ⟨y, mo, d, h, mi, s⟩
  else none

/-- Python's datetime.strptime(s, FMT14) where FMT14 is the combined
14-digit year-month-day-hour-minute-second layout used throughout the
repository; returns none where strptime raises ValueError. -/
def parseDateTime14 (s : String) : Option PDateTime :=
  let cs := s.data
  if cs.length = 14 ∧ cs.all Char.isDigit then
    mkDateTime (digitsVal (cs.take 4)) (digitsVal ((cs.drop 4).take 2))
      (digitsVal ((cs.drop 6).take 2)) (digitsVal ((cs.drop 8).take 2))
      (digitsVal ((cs.drop 10).take 2)) (digitsVal ((cs.drop 12).take 2))
  else none

/-- Parse an all-digit field of expected length, as strptime does for a
fixed-width numeric directive. -/
def parseDigits (s : String) (len : Nat) : Option Nat :=
  if s.data.length = len ∧ s.data.all Char.isDigit then some (digitsVal s.data) else none

/-- Parse a 1- or 2-digit field, as strptime's month/day directives accept. -/
def parseDigits12 (s : String) : Option Nat :=
  if (s.data.length = 1 ∨ s.data.length = 2) ∧ s.data.all Char.isDigit then
    some (digitsVal s.data)
  else none

/-- Python's strptime with the dash-separated year-month-day format. -/
def parseDateISO (s : String) : Option PDateTime :=
  match pySplitChar '-' s with
  | [y, m, d] =>
    match parseDigits y 4, parseDigits12 m, parseDigits12 d with
    | some yv, some mv, some dv => mkDateTime yv mv dv 0 0 0
    | _, _, _ => none
  | _ => none

/-- Python's strptime with the 8-digit year-month-day format. -/
def parseDate8 (s : String) : Option PDateTime :=
  let cs := s.data
  if cs.length = 8 ∧ cs.all Char.isDigit then
    mkDateTime (digitsVal (cs.take 4)) (digitsVal ((cs.drop 4).take 2))
      (digitsVal ((cs.drop 6).take 2)) 0 0 0
  else none

/-- Python's strptime with the slash-separated day/month/year format. -/
def parseDateDMY (s : String) : Option PDateTime :=
  match pySplitChar '/' s with
  | [d, m, y] =>
    match parseDigits12 d, parseDigits12 m, parseDigits y 4 with
    | some dv, some mv, some yv => mkDateTime yv mv dv 0 0 0
    | _, _, _ => none
  | _ => none

/-- Python's strptime with the slash-separated month/day/year format. -/
def parseDateMDY (s : String) : Option PDateTime :=
  match pySplitChar '/' s with
  | [m, d, y] =>
    match parseDigits12 m, parseDigits12 d, parseDigits y 4 with
    | some mv, some dv, some yv => mkDateTime yv mv dv 0 0 0
    | _, _, _ => none
  | _ => none

/-- Decimal number in normalized scaled-integer form: the value is
mantissa divided by ten to the exponent, with trailing fractional zeros
stripped so that structural equality coincides with numeric equality.
This models the reading values the system stores and compares (Python
float / Django Decimal equality on the plain decimal literals the
repository handles). -/
structure DecVal where
  mantissa : Int
  exponent : Nat
  deriving DecidableEq, Repr

/-- Normalize a scaled integer by stripping trailing zero fractional
digits. -/
def normDec (m : Int) : Nat → DecVal
  | 0 => ⟨m, 0⟩
  | e + 1 => if m % 10 = 0 then normDec (m / 10) e else ⟨m, e + 1⟩

/-- Decimal value of an integer. -/
def decOfInt (n : Int) : DecVal := ⟨n, 0⟩

/-- Python's float() on the plain decimal literals the repository feeds it:
optional sign, digits with an optional fractional part (exponent and
inf/nan forms are not used by any input and are not modelled). Returns
none where float() raises ValueError. -/
def parseDecimal (s : String) : Option DecVal :=
  let t := pyStrip s
  let (neg, body) :=
    if pyStartsWith t "-" then (true, (⟨t.data.drop 1⟩ : String))
    else if pyStartsWith t "+" then (false, (⟨t.data.drop 1⟩ : String))
    else (false, t)
  let signed : Int → Int := fun n => if neg then -n else n
  match pySplitChar '.' body with
  | [a] =>
    if a.data ≠ [] ∧ a.data.all Char.isDigit then
      some (decOfInt (signed (digitsVal a.data)))
    else none
  | [a, b] =>
    if (a.data ≠ [] ∨ b.data ≠ []) ∧ a.data.all Char.isDigit ∧ b.data.all Char.isDigit then
      some (normDec (signed (digitsVal a.data * 10 ^ b.data.length + digitsVal b.data))
        b.data.length)
    else none
  | _ => none

/- ### Data model (src/meter_readings/models.py) -/

/-- Row of the FlowFile model: an imported file's metadata. The id field
models the Django auto primary key. -/
structure FlowFile where
  id : Nat
  filename : String
  file_type : String
  record_count : Nat
  status : String
  checksum : Option String
  sequence_number : String
  version : String
  rec_type : String
  sender : String
  receiver : String
  creation_date : Option PDateTime
  deriving DecidableEq, Repr

/-- Row of the Meter model. serial_number is unique; flow_file is the
back-pointer to the originating FlowFile (by id; none models a parser used
standalone with no current flow file). -/
structure Meter where
  serial_number : String
  mpan : String
  meter_type : String
  flow_file : Option Nat
  created_date : PDateTime
  deriving DecidableEq, Repr

/-- Row of the RegisterReading model. The meter foreign key is modelled by
the meter's unique serial number. -/
structure Reading where
  meter_serial : String
  register_id : String
  reading_date : PDateTime
  reading_value : DecVal
  reading_type : String
  flow_file : Option Nat
  deriving DecidableEq, Repr

/-- The persistent store: one list of rows per model, plus the next
FlowFile primary key. -/
structure Store where
  flowFiles : List FlowFile
  meters : List Meter
  readings : List Reading
  nextId : Nat
  deriving DecidableEq, Repr

/-- Import statistics carried by every parser instance. The three counters
are exactly the keys of the Python stats dict of UniversalParser,
D0010StandardParser and FallbackParser. -/
structure Stats where
  meters_created : Nat
  readings_created : Nat
  duplicates_skipped : Nat
  deriving DecidableEq, Repr

/-- Fresh statistics, as each parser's constructor builds. -/
def Stats.init : Stats := ⟨0, 0, 0⟩

/-- Dictionary lookup on the stats dict: some for the three keys that were
initialized, none (a Python KeyError) for any other key. -/
def Stats.get? (st : Stats) (key : String) : Option Nat :=
  if key = "meters_created" then some st.meters_created
  else if key = "readings_created" then some st.readings_created
  else if key = "duplicates_skipped" then some st.duplicates_skipped
  else none

/-- SHA-256 content fingerprint of _calculate_checksum, modelled as the raw
content itself: the digest is injective on the inputs the system can tell
apart (the spec treats the fingerprint as collision-free, its sole purpose
being content identity). -/
def checksumOf (content : String) : String := content

/-- Django's objects.create for FlowFile: append a row with the next
primary key, defaults for the unset columns. -/
def createFlowFile (store : Store) (filename ftype status checksum : String) :
    Store × FlowFile :=
  let ff : FlowFile :=
    { id := store.nextId, filename := filename, file_type := ftype,
      record_count := 0, status := status, checksum := some checksum,
      sequence_number := "", version := "", rec_type := "", sender := "",
      receiver := "", creation_date := none }
  ({ store with flowFiles := store.flowFiles ++ [ff], nextId := store.nextId + 1 }, ff)

/-- Django's save() on a FlowFile instance: overwrite the row with the same
primary key. -/
def saveFlowFile (store : Store) (ff : FlowFile) : Store :=
  { store with flowFiles := store.flowFiles.map (fun x => if x.id = ff.id then ff else x) }

/-- Django's Meter.objects.get_or_create(serial_number=..., defaults=...):
fetch by unique serial, else insert a row built from the defaults. Returns
the store, the row, and the created flag. -/
def getOrCreateMeter (store : Store) (serial mpan mtype : String)
    (ffId : Option Nat) (created : PDateTime) : Store × Meter × Bool :=
  match store.meters.find? (fun m => m.serial_number = serial) with
  | some m => (store, m, false)
  | none =>
    let m : Meter := ⟨serial, mpan, mtype, ffId, created⟩
    ({ store with meters := store.meters ++ [m] }, m, true)

/-- Django's RegisterReading.objects.get_or_create keyed on the natural key
(meter, register_id, reading_date, reading_value), with reading_type and
flow_file as defaults. Returns the store and the created flag. -/
def getOrCreateReading (store : Store) (serial reg : String) (dt : PDateTime)
    (v : DecVal) (rtype : String) (ffId : Option Nat) : Store × Bool :=
  match store.readings.find? (fun r =>
      r.meter_serial = serial ∧ r.register_id = reg ∧
      r.reading_date = dt ∧ r.reading_value = v) with
  | some _ => (store, false)
  | none =>
    ({ store with readings := store.readings ++ [⟨serial, reg, dt, v, rtype, ffId⟩] }, true)

/- ### Parser state (shared shape of D0010StandardParser and FallbackParser) -/

/-- Mutable state of a grammar parser instance: the store, the stats dict,
the in-memory current FlowFile object (saved to the store only when the
Python code calls save()), the running import context, and the clock value
returned by datetime.now() in this import. -/
structure PState where
  store : Store
  stats : Stats
  ffObj : Option FlowFile
  currentMpan : Option String
  currentMeterSerial : Option String
  currentRegisterId : Option String
  now : PDateTime
  deriving DecidableEq, Repr

/-- Field access pattern of the parsers: fields[i].strip() if the index is
in range, else the empty string. -/
def fld (fields : List String) (i : Nat) : String :=
  pyStrip (fields.getD i "")

/-- Field access without strip, as the fallback ZHV handler reads fields. -/
def fldRaw (fields : List String) (i : Nat) : String :=
  fields.getD i ""

/-- Python's `x or "00"` on the current register id. -/
def regOrDefault : Option String → String
  | none => "00"
  | some r => if r = "" then "00" else r

/-- Creation date for a new meter: the current flow file's header creation
date if known, else datetime.now(). -/
def meterCreationDate (st : PState) : PDateTime :=
  match st.ffObj with
  | some ff => ff.creation_date.getD st.now
  | none => st.now

/- ### D0010StandardParser (src/meter_readings/d0010_standard_parser.py) -/

/-- Embeds D0010StandardParser._parse_zhd_record: below 8 fields skip;
else copy header fields onto the in-memory FlowFile and parse the combined
creation date+time, leaving it unset when strptime fails. -/
def strictParseZHD (st : PState) (fields : List String) : PState :=
  if fields.length < 8 then st
  else
    match st.ffObj with
    | none => st
    | some ff =>
      let ff := { ff with sequence_number := fld fields 1, version := fld fields 2,
                          sender := fld fields 3, receiver := fld fields 4 }
      let cd := fld fields 5
      let ct := fld fields 6
      let ff :=
        if cd ≠ "" ∧ ct ≠ "" then
          match parseDateTime14 (cd ++ ct) with
          | some dt => { ff with creation_date := some dt }
          | none => ff
        else ff
      { st with ffObj := some ff }

/-- Embeds D0010StandardParser._parse_026_record: below 3 fields skip;
MPAN must be non-empty of length 13, else skip; on success remember it as
the current MPAN. -/
def strictParse026 (st : PState) (fields : List String) : PState :=
  if fields.length < 3 then st
  else
    let mpan := fld fields 1
    if mpan = "" ∨ mpan.data.length ≠ 13 then st
    else { st with currentMpan := some mpan }

/-- Embeds D0010StandardParser._parse_028_record: below 12 fields skip;
requires a non-empty meter serial and current value and a current MPAN;
upserts the Meter by serial, remembers the current serial and register,
upserts the current reading (float or date failures are contained), and
when the previous date and time are non-empty and the previous date string
differs from the current date string, upserts a zero-valued placeholder
previous reading of type Estimated — with no duplicates_skipped increment
on that path. -/
def strictParse028 (st : PState) (fields : List String) : PState :=
  if fields.length < 12 then st
  else
    let register_id := fld fields 1
    let meter_serial := fld fields 4
    let reading_type := fld fields 5
    let prev_date := fld fields 6
    let prev_time := fld fields 7
    let curr_date := fld fields 8
    let curr_time := fld fields 9
    let curr_value := fld fields 10
    if meter_serial = "" ∨ curr_value = "" then st
    else
      match st.currentMpan with
      | none => st
      | some mpan =>
        let ffId := st.ffObj.map (fun f => f.id)
        let res := getOrCreateMeter st.store meter_serial mpan "E" ffId (meterCreationDate st)
        let stats1 :=
          if res.2.2 then { st.stats with meters_created := st.stats.meters_created + 1 }
          else st.stats
        let st := { st with store := res.1, stats := stats1,
                            currentMeterSerial := some meter_serial,
                            currentRegisterId := some register_id }
        let st :=
          match parseDecimal curr_value with
          | none => st
          | some v =>
            let dt :=
              if curr_date ≠ "" ∧ curr_time ≠ "" then
                (parseDateTime14 (curr_date ++ curr_time)).getD st.now
              else st.now
            let r := getOrCreateReading st.store meter_serial register_id dt v reading_type ffId
            let stats2 :=
              if r.2 then { st.stats with readings_created := st.stats.readings_created + 1 }
              else { st.stats with duplicates_skipped := st.stats.duplicates_skipped + 1 }
            { st with store := r.1, stats := stats2 }
        if prev_date ≠ "" ∧ prev_time ≠ "" ∧ prev_date ≠ curr_date then
          match parseDateTime14 (prev_date ++ prev_time) with
          | none => st
          | some pdt =>
            let r := getOrCreateReading st.store meter_serial register_id pdt (decOfInt 0) "E" ffId
            let stats3 :=
              if r.2 then { st.stats with readings_created := st.stats.readings_created + 1 }
              else st.stats
            { st with store := r.1, stats := stats3 }
        else st

/-- Embeds D0010StandardParser._parse_029_record: below 8 fields skip;
requires a non-empty reading value and date, a parseable value, and a
remembered current meter that exists in the store; upserts one reading
against the remembered register (default 00), counting duplicates. -/
def strictParse029 (st : PState) (fields : List String) : PState :=
  if fields.length < 8 then st
  else
    let reading_date := fld fields 2
    let reading_time := fld fields 3
    let register_reading := fld fields 4
    let reading_method := fld fields 6
    if register_reading = "" ∨ reading_date = "" then st
    else
      match parseDecimal register_reading with
      | none => st
      | some v =>
        let dt := (parseDateTime14 (reading_date ++ reading_time)).getD st.now
        match st.currentMeterSerial with
        | none => st
        | some serial =>
          match st.store.meters.find? (fun m => m.serial_number = serial) with
          | none => st
          | some m =>
            let ffId := st.ffObj.map (fun f => f.id)
            let r := getOrCreateReading st.store m.serial_number
              (regOrDefault st.currentRegisterId) dt v reading_method ffId
            let stats1 :=
              if r.2 then { st.stats with readings_created := st.stats.readings_created + 1 }
              else { st.stats with duplicates_skipped := st.stats.duplicates_skipped + 1 }
            { st with store := r.1, stats := stats1 }

/-- Embeds D0010StandardParser._parse_ztr_record: informational only, no
state effect. -/
def strictParseZTR (st : PState) (_fields : List String) : PState := st

/-- Embeds D0010StandardParser.parse_record: skip blank lines, split on the
pipe delimiter, dispatch on the stripped record-type token; unknown tokens
are logged and skipped. -/
def strictParseRecord (st : PState) (line : String) : PState :=
  if pyStrip line = "" then st
  else
    let fields := pySplitChar '|' line
    let t := pyStrip (fields.headD "")
    if t = "ZHD" then strictParseZHD st fields
    else if t = "026" then strictParse026 st fields
    else if t = "028" then strictParse028 st fields
    else if t = "029" then strictParse029 st fields
    else if t = "ZTR" then strictParseZTR st fields
    else st

/- ### FallbackParser (src/meter_readings/fallback_parser.py) -/

/-- Embeds FallbackParser._parse_zhv_record: below 8 fields skip; copies
header fields without stripping; the creation date is parsed only when both
parts are non-empty digit strings. -/
def fallbackParseZHV (st : PState) (fields : List String) : PState :=
  if fields.length < 8 then st
  else
    match st.ffObj with
    | none => st
    | some ff =>
      let ff := { ff with sequence_number := fldRaw fields 1, version := fldRaw fields 2,
                          sender := fldRaw fields 3, receiver := fldRaw fields 4 }
      let cd := fldRaw fields 5
      let ct := fldRaw fields 6
      let ff :=
        if cd ≠ "" ∧ ct ≠ "" ∧ pyIsDigit cd ∧ pyIsDigit ct then
          match parseDateTime14 (cd ++ ct) with
          | some dt => { ff with creation_date := some dt }
          | none => ff
        else ff
      { st with ffObj := some ff }

/-- Embeds FallbackParser._parse_026_record: below 3 fields skip; any
non-empty MPAN (no length validation) becomes the current MPAN. -/
def fallbackParse026 (st : PState) (fields : List String) : PState :=
  if fields.length < 3 then st
  else
    let mpan := fld fields 1
    if mpan = "" then st else { st with currentMpan := some mpan }

/-- Embeds FallbackParser._parse_028_record: below 2 fields skip; the
record carries only the meter serial; requires a current MPAN; upserts the
Meter (created_date defaults to now, not the header date) and fixes the
current register id to 00. -/
def fallbackParse028 (st : PState) (fields : List String) : PState :=
  if fields.length < 2 then st
  else
    let meter_serial := fld fields 1
    if meter_serial = "" then st
    else
      match st.currentMpan with
      | none => st
      | some mpan =>
        let ffId := st.ffObj.map (fun f => f.id)
        let res := getOrCreateMeter st.store meter_serial mpan "E" ffId st.now
        let stats1 :=
          if res.2.2 then { st.stats with meters_created := st.stats.meters_created + 1 }
          else st.stats
        { st with store := res.1, stats := stats1,
                  currentMeterSerial := some meter_serial,
                  currentRegisterId := some "00" }

/-- Embeds FallbackParser._parse_030_record: below 5 fields skip; requires
a non-empty value and date, a parseable value, and a remembered current
meter that exists in the store; upserts exactly one reading, counting
duplicates. -/
def fallbackParse030 (st : PState) (fields : List String) : PState :=
  if fields.length < 5 then st
  else
    let reading_type := fld fields 1
    let reading_date := fld fields 2
    let reading_value := fld fields 3
    if reading_value = "" ∨ reading_date = "" then st
    else
      match parseDecimal reading_value with
      | none => st
      | some v =>
        let dt := (parseDateTime14 reading_date).getD st.now
        match st.currentMeterSerial with
        | none => st
        | some serial =>
          match st.store.meters.find? (fun m => m.serial_number = serial) with
          | none => st
          | some m =>
            let ffId := st.ffObj.map (fun f => f.id)
            let r := getOrCreateReading st.store m.serial_number
              (regOrDefault st.currentRegisterId) dt v reading_type ffId
            let stats1 :=
              if r.2 then { st.stats with readings_created := st.stats.readings_created + 1 }
              else { st.stats with duplicates_skipped := st.stats.duplicates_skipped + 1 }
            { st with store := r.1, stats := stats1 }

/-- Embeds FallbackParser._parse_zpt_record: informational only. -/
def fallbackParseZPT (st : PState) (_fields : List String) : PState := st

/-- Embeds FallbackParser.parse_record: skip blank lines, split on the
pipe delimiter, dispatch on the stripped record-type token; unknown tokens
are logged and skipped. -/
def fallbackParseRecord (st : PState) (line : String) : PState :=
  if pyStrip line = "" then st
  else
    let fields := pySplitChar '|' line
    let t := pyStrip (fields.headD "")
    if t = "ZHV" then fallbackParseZHV st fields
    else if t = "026" then fallbackParse026 st fields
    else if t = "028" then fallbackParse028 st fields
    else if t = "030" then fallbackParse030 st fields
    else if t = "ZPT" then fallbackParseZPT st fields
    else st

/-- Per-line driving loop shared by every call site: strip each line, skip
blanks, feed the rest to the given parse_record, containing per-line
errors. -/
def runLines (step : PState → String → PState) (init : PState) (ls : List String) : PState :=
  ls.foldl (fun s l => let l' := pyStrip l; if l' = "" then s else step s l') init

/-- Split file content into lines as Python's text-mode iteration does. -/
def fileLines (content : String) : List String :=
  pySplitChar '\n' content

/-- First line of the file, stripped — the sample every format probe
reads via f.readline().strip(). -/
def firstLine (content : String) : String :=
  pyStrip ((fileLines content).headD "")

/-- Fresh parser state for a sub-parser run inside an import. -/
def initPState (store : Store) (ff : Option FlowFile) (now : PDateTime) : PState :=
  { store := store, stats := Stats.init, ffObj := ff, currentMpan := none,
    currentMeterSerial := none, currentRegisterId := none, now := now }

/- ### UniversalParser (src/meter_readings/universal_parser.py) -/

/-- Python exceptions that can escape the per-line containment and reach a
parse_file caller. -/
inductive ParseError where
  | duplicateContent (priorFilename : String)
  | keyError (key : String)
  | unsupportedFormat (format : String)
  | csvSniffError
  | jsonError
  deriving DecidableEq, Repr

/-- Mutable state of a UniversalParser instance while a generic branch
runs: the store, the stats dict, the in-memory current FlowFile and the
clock. -/
structure UniState where
  store : Store
  stats : Stats
  ffObj : Option FlowFile
  now : PDateTime
  deriving DecidableEq, Repr

/-- Embeds UniversalParser._detect_file_format: extension first, then the
first line of content is probed, defaulting to txt. Returns the format tag
string the Python function returns. -/
def detectFileFormat (filename content : String) : String :=
  let fn := pyToLower filename
  if pyEndsWith fn ".uff" then "uff"
  else if pyEndsWith fn ".csv" then "csv"
  else if pyEndsWith fn ".json" then "json"
  else if pyEndsWith fn ".xml" then "xml"
  else if pyEndsWith fn ".txt" then "txt"
  else if pyEndsWith fn ".pdf" then "pdf"
  else if pyEndsWith fn ".xlsx" || pyEndsWith fn ".xls" then "excel"
  else if pyEndsWith fn ".docx" || pyEndsWith fn ".doc" then "word"
  else
    let first := firstLine content
    if pyStartsWith first "ZHV|" || pyStartsWith first "ZHD|" then "uff"
    else if pyContainsChar first ',' && !pyStartsWith first "\x7b" then "csv"
    else if pyStartsWith first "\x7b" || pyStartsWith first "[" then "json"
    else if pyStartsWith first "<?xml" || pyStartsWith first "<" then "xml"
    else "txt"

/-- Embeds UniversalParser._create_meter_data: upsert the meter by serial
(defaults: the given mpan, Electricity, the current flow file, its header
creation date or now); then, when the value parses as a float, upsert one
reading on the default register 00 with type R. The reading date tries the
four configured formats; when all fail the reading row cannot be inserted
(reading_dt stays None and the insert fails), leaving only the meter. -/
def createMeterData (st : UniState) (mpan serial value : String)
    (date : Option String) : UniState :=
  let ffId := st.ffObj.map (fun f => f.id)
  let creation_date :=
    match st.ffObj with
    | some ff => ff.creation_date.getD st.now
    | none => st.now
  let res := getOrCreateMeter st.store serial mpan "E" ffId creation_date
  let stats1 :=
    if res.2.2 then { st.stats with meters_created := st.stats.meters_created + 1 }
    else st.stats
  let st := { st with store := res.1, stats := stats1 }
  if value = "" then st
  else
    match parseDecimal value with
    | none => st
    | some v =>
      let rdt : Option PDateTime :=
        match date with
        | none => some st.now
        | some d =>
          if d = "" then some st.now
          else
            match parseDateISO d with
            | some dt => some dt
            | none =>
              match parseDate8 d with
              | some dt => some dt
              | none =>
                match parseDateDMY d with
                | some dt => some dt
                | none => parseDateMDY d
      match rdt with
      | none => st
      | some dt =>
        let r := getOrCreateReading st.store serial "00" dt v "R" ffId
        let stats2 :=
          if r.2 then { st.stats with readings_created := st.stats.readings_created + 1 }
          else { st.stats with duplicates_skipped := st.stats.duplicates_skipped + 1 }
        { st with store := r.1, stats := stats2 }

/-- Shared field-extraction tail of each delimiter case in
UniversalParser._parse_txt_file: with at least 3 fields and non-empty
point id, serial and value, feed _create_meter_data. -/
def txtExtractParts (st : UniState) (parts : List String) : UniState :=
  if parts.length ≥ 3 then
    let mpan := pyStrip (parts.getD 0 "")
    let serial := pyStrip (parts.getD 1 "")
    let v := pyStrip (parts.getD 2 "")
    let date := if parts.length > 3 then some (pyStrip (parts.getD 3 "")) else none
    if mpan ≠ "" ∧ serial ≠ "" ∧ v ≠ "" then createMeterData st mpan serial v date else st
  else st

/-- Embeds the loop body of UniversalParser._parse_txt_file: the delimiter
is chosen by which character the line contains — pipe, else tab, else
comma, else whitespace — and only that one split is attempted. -/
def txtLineStep (st : UniState) (rawLine : String) : UniState :=
  let line := pyStrip rawLine
  if line = "" then st
  else if pyContainsChar line '|' then txtExtractParts st (pySplitChar '|' line)
  else if pyContainsChar line '\t' then txtExtractParts st (pySplitChar '\t' line)
  else if pyContainsChar line ',' then txtExtractParts st (pySplitChar ',' line)
  else txtExtractParts st (pySplitWs line)

/-- Embeds UniversalParser._parse_txt_file (and _parse_txt_content, which
is the same loop over already-read content). -/
def txtBranch (st : UniState) (content : String) : UniState :=
  (fileLines content).foldl txtLineStep st

/-- Column count consistency probe for one delimiter over the sample
lines. -/
def consistentDelim (c : Char) : List String → Bool
  | [] => false
  | l :: rest =>
    decide ((pySplitChar c l).length > 1) &&
      rest.all (fun r => (pySplitChar c r).length = (pySplitChar c l).length)

/-- Delimiter detection of csv.Sniffer().sniff, modelled from its
documented contract (spec section 4.4): the first of comma, tab, semicolon
that yields a consistent column count of more than one across the sample's
non-empty lines; none models the Error the sniffer raises otherwise. No
theorem below depends on the internals of this model. -/
def sniffDelimiter (sample : String) : Option Char :=
  let ls := (fileLines sample).filter (fun l => pyStrip l ≠ "")
  if consistentDelim ',' ls then some ','
  else if consistentDelim '\t' ls then some '\t'
  else if consistentDelim ';' ls then some ';'
  else none

/-- Lookup of one column of a row by header name, as dict.get on a
csv.DictReader row. -/
def rowGet (row : List (String × String)) (k : String) : Option String :=
  (row.find? (fun p => p.1 = k)).map (fun p => p.2)

/-- Python's `row.get(a) or row.get(b) or row.get(c)` followed by a
truthiness test: the first key bound to a non-empty value, if any. -/
def pickField (row : List (String × String)) : List String → Option String
  | [] => none
  | k :: ks =>
    match rowGet row k with
    | some v => if v ≠ "" then some v else pickField row ks
    | none => pickField row ks

/-- Rows of csv.DictReader: the first non-empty line is the header, each
later non-empty line is zipped against it (quoting is not modelled; the
repository's csv fixtures use none). -/
def csvRows (content : String) (d : Char) : List (List (String × String)) :=
  match (fileLines content).filter (fun l => l ≠ "") with
  | [] => []
  | header :: rest =>
    let hs := pySplitChar d header
    rest.map (fun r => hs.zip (pySplitChar d r))

/-- Embeds the row loop body of UniversalParser._parse_csv_file. -/
def csvRowStep (st : UniState) (row : List (String × String)) : UniState :=
  match pickField row ["mpan", "MPAN", "meter_point"],
        pickField row ["serial", "SERIAL", "meter_serial"],
        pickField row ["reading", "READING", "value"] with
  | some m, some s, some v =>
    createMeterData st m s v (pickField row ["date", "DATE", "reading_date"])
  | _, _, _ => st

/-- Embeds UniversalParser._parse_csv_file: sniff the delimiter on the
first 1024 characters (none means the sniffer raised, which aborts the
file), then process each row. -/
def csvBranch (st : UniState) (content : String) : Option UniState :=
  match sniffDelimiter ⟨content.data.take 1024⟩ with
  | none => none
  | some d => some ((csvRows content d).foldl csvRowStep st)

/-- JSON value, with numbers kept as their source lexeme so that the later
float() call sees the same text. -/
inductive Json where
  | jnull
  | jbool (b : Bool)
  | jnum (lex : String)
  | jstr (s : String)
  | jarr (items : List Json)
  | jobj (fields : List (String × Json))

/-- Whitespace skipping inside JSON text. -/
def jsonSkipWs (cs : List Char) : List Char :=
  cs.dropWhile (fun c => c = ' ' || c = '\t' || c = '\n' || c = '\r')

/-- Characters that may appear in a JSON number lexeme. -/
def jsonNumChar (c : Char) : Bool :=
  c.isDigit || c = '-' || c = '+' || c = '.' || c = 'e' || c = 'E'

/-- Scan a JSON string body after the opening quote (escape sequences are
simplified to the escaped character itself; the repository's fixtures use
none). -/
def jsonStrAux : List Char → List Char → Option (String × List Char)
  | [], _ => none
  | '"' :: rest, acc => some (⟨acc.reverse⟩, rest)
  | '\\' :: c :: rest, acc => jsonStrAux rest (c :: acc)
  | c :: rest, acc => jsonStrAux rest (c :: acc)

mutual

/-- Fuel-bounded JSON value parser, a simplified but executable model of
json.load; no theorem below depends on its internals. -/
def jsonParseVal : Nat → List Char → Option (Json × List Char)
  | 0, _ => none
  | fuel + 1, cs =>
    match jsonSkipWs cs with
    | '{' :: rest => jsonParseObj fuel rest [] true
    | '[' :: rest => jsonParseArr fuel rest [] true
    | '"' :: rest => (jsonStrAux rest []).map (fun p => (Json.jstr p.1, p.2))
    | 't' :: 'r' :: 'u' :: 'e' :: rest => some (.jbool true, rest)
    | 'f' :: 'a' :: 'l' :: 's' :: 'e' :: rest => some (.jbool false, rest)
    | 'n' :: 'u' :: 'l' :: 'l' :: rest => some (.jnull, rest)
    | cs' =>
      let num := cs'.takeWhile jsonNumChar
      if num.isEmpty then none
      else some (.jnum ⟨num⟩, cs'.dropWhile jsonNumChar)

/-- Fuel-bounded JSON array tail parser. -/
def jsonParseArr : Nat → List Char → List Json → Bool → Option (Json × List Char)
  | 0, _, _, _ => none
  | fuel + 1, cs, acc, first =>
    match jsonSkipWs cs, first with
    | ']' :: rest, true => some (.jarr [], rest)
    | cs', _ =>
      match jsonParseVal fuel cs' with
      | none => none
      | some (v, cs2) =>
        match jsonSkipWs cs2 with
        | ',' :: rest => jsonParseArr fuel rest (v :: acc) false
        | ']' :: rest => some (.jarr (v :: acc).reverse, rest)
        | _ => none

/-- Fuel-bounded JSON object tail parser. -/
def jsonParseObj : Nat → List Char → List (String × Json) → Bool →
    Option (Json × List Char)
  | 0, _, _, _ => none
  | fuel + 1, cs, acc, first =>
    match jsonSkipWs cs, first with
    | '}' :: rest, true => some (.jobj [], rest)
    | '"' :: rest, _ =>
      match jsonStrAux rest [] with
      | none => none
      | some (k, cs2) =>
        match jsonSkipWs cs2 with
        | ':' :: cs3 =>
          match jsonParseVal fuel cs3 with
          | none => none
          | some (v, cs4) =>
            match jsonSkipWs cs4 with
            | ',' :: rest2 => jsonParseObj fuel rest2 ((k, v) :: acc) false
            | '}' :: rest2 => some (.jobj ((k, v) :: acc).reverse, rest2)
            | _ => none
        | _ => none
    | _, _ => none

end

/-- Top-level json.load model: parse one value and require only
whitespace to remain. -/
def jsonParse (s : String) : Option Json :=
  match jsonParseVal (s.data.length + 1) s.data with
  | some (v, rest) => if jsonSkipWs rest = [] then some v else none
  | none => none

/-- Lookup in a JSON object's fields. -/
def jGet (fields : List (String × Json)) (k : String) : Option Json :=
  (fields.find? (fun p => p.1 = k)).map (fun p => p.2)

/-- Python truthiness of a JSON value. -/
def jTruthy : Json → Bool
  | .jnull => false
  | .jbool b => b
  | .jnum lex => match parseDecimal lex with | some v => v ≠ decOfInt 0 | none => true
  | .jstr s => s ≠ ""
  | .jarr l => !l.isEmpty
  | .jobj l => !l.isEmpty

/-- Python's `item.get(a) or item.get(b) or ...` followed by a truthiness
test, over a JSON object. -/
def jPick (fields : List (String × Json)) : List String → Option Json
  | [] => none
  | k :: ks =>
    match jGet fields k with
    | some v => if jTruthy v then some v else jPick fields ks
    | none => jPick fields ks

/-- String form of a scalar JSON value as it reaches the store layer
(container values never reach entity creation meaningfully). -/
def pyStrOfJson : Json → String
  | .jstr s => s
  | .jnum lex => lex
  | .jbool true => "True"
  | .jbool false => "False"
  | .jnull => "None"
  | .jarr _ => ""
  | .jobj _ => ""

/-- Embeds UniversalParser._process_json_item: non-dict items raise inside
the per-item containment and are skipped; a non-string date value ends at
the now fallback exactly as Python's TypeError path does. -/
def processJsonItem (st : UniState) (item : Json) : UniState :=
  match item with
  | .jobj fields =>
    match jPick fields ["mpan", "MPAN", "meter_point"],
          jPick fields ["serial", "SERIAL", "meter_serial"],
          jPick fields ["reading", "READING", "value"] with
    | some m, some s, some v =>
      let dateArg :=
        match jPick fields ["date", "DATE", "reading_date"] with
        | some (.jstr d) => some d
        | _ => none
      createMeterData st (pyStrOfJson m) (pyStrOfJson s) (pyStrOfJson v) dateArg
    | _, _, _ => st
  | _ => st

/-- Embeds UniversalParser._parse_json_file: none models an exception
escaping to parse_file (invalid JSON, or iterating a non-iterable readings
or meters member). -/
def jsonBranch (st : UniState) (content : String) : Option UniState :=
  match jsonParse content with
  | none => none
  | some (.jarr items) => some (items.foldl processJsonItem st)
  | some (.jobj fields) =>
    match jGet fields "readings" with
    | some (.jarr items) => some (items.foldl processJsonItem st)
    | some (.jstr _) => some st
    | some (.jobj _) => some st
    | some _ => none
    | none =>
      match jGet fields "meters" with
      | some (.jarr items) => some (items.foldl processJsonItem st)
      | some (.jstr _) => some st
      | some (.jobj _) => some st
      | some _ => none
      | none => some (processJsonItem st (.jobj fields))
  | some _ => some st

/-- Attribute scanner for one markup element, fuel-bounded. -/
def xmlAttrsAux : Nat → List Char → List (String × String) → List (String × String)
  | 0, _, acc => acc.reverse
  | fuel + 1, cs, acc =>
    match cs.dropWhile pyIsSpace with
    | [] => acc.reverse
    | '>' :: _ => acc.reverse
    | '/' :: _ => acc.reverse
    | cs' =>
      let stop := fun (c : Char) => c = '=' || c = '>' || c = '/' || pyIsSpace c
      let name := cs'.takeWhile (fun c => !stop c)
      let rest := cs'.dropWhile (fun c => !stop c)
      match rest.dropWhile pyIsSpace with
      | '=' :: r2 =>
        match r2.dropWhile pyIsSpace with
        | '"' :: r3 =>
          let v := r3.takeWhile (fun c => c ≠ '"')
          xmlAttrsAux fuel ((r3.dropWhile (fun c => c ≠ '"')).drop 1)
            ((⟨name⟩, ⟨v⟩) :: acc)
        | _ => acc.reverse
      | _ => acc.reverse

/-- Collect the attribute lists of the reading elements of a markup
document: a simplified executable model of ElementTree plus
findall for reading elements, attribute form only (the child-element
fallback is not modelled; no theorem below depends on the internals). -/
def xmlItemsAux : Nat → List Char → List (List (String × String)) →
    List (List (String × String))
  | 0, _, acc => acc.reverse
  | fuel + 1, cs, acc =>
    match cs with
    | [] => acc.reverse
    | _ :: tl =>
      if ("<reading".data).isPrefixOf cs then
        let rest := cs.drop 8
        xmlItemsAux fuel tl (xmlAttrsAux (rest.length + 1) rest [] :: acc)
      else xmlItemsAux fuel tl acc

/-- Embeds the element loop body of UniversalParser._parse_xml_file. -/
def xmlItemStep (st : UniState) (attrs : List (String × String)) : UniState :=
  match pickField attrs ["mpan"], pickField attrs ["serial"], pickField attrs ["value"] with
  | some m, some s, some v => createMeterData st m s v (pickField attrs ["date"])
  | _, _, _ => st

/-- Embeds UniversalParser._parse_xml_file: parse failures are swallowed
inside the method, so the branch never aborts the file. -/
def xmlBranch (st : UniState) (content : String) : UniState :=
  (xmlItemsAux (content.data.length + 1) content.data []).foldl xmlItemStep st

/-- Embeds UniversalParser._extract_pdf_text: all three decoding attempts
collapse, on an in-memory content string, to checking for the grammar
markers. -/
def extractPdfText (content : String) : Option String :=
  if pyContainsSub content "ZHD|" || pyContainsSub content "ZHV|" ||
      pyContainsSub content "026|" then some content
  else none

/-- Embeds UniversalParser._parse_pdf_text_content: the first line opening
with a grammar header token selects the strict or fallback grammar over
all lines; with no such line the content is processed as free text. -/
def parsePdfTextContent (st : UniState) (text : String) : UniState :=
  let ls := fileLines text
  match ls.find? (fun l =>
      pyStartsWith (pyStrip l) "ZHD|" || pyStartsWith (pyStrip l) "ZHV|") with
  | some l =>
    let init := initPState st.store st.ffObj st.now
    let fin :=
      if pyStartsWith (pyStrip l) "ZHD|" then runLines strictParseRecord init ls
      else runLines fallbackParseRecord init ls
    { st with store := fin.store, stats := fin.stats, ffObj := fin.ffObj }
  | none => (fileLines text).foldl txtLineStep st

/-- Embeds UniversalParser._parse_pdf_file: with no extractable grammar
text a sentinel no-content meter and reading are fabricated. -/
def pdfBranch (st : UniState) (content : String) : UniState :=
  match extractPdfText content with
  | some text => parsePdfTextContent st text
  | none => createMeterData st "PDF_NO_CONTENT_MPAN" "PDF_NO_CONTENT_SERIAL" "0.000" none

/-- Outcome of the format dispatch inside UniversalParser.parse_file: the
store, the in-memory flow file and the stats after the branch ran, or the
same plus the exception that escaped it. -/
inductive DispatchOut where
  | ok (store : Store) (ff : FlowFile) (stats : Stats)
  | err (store : Store) (ff : FlowFile) (e : ParseError)

/-- Embeds the format dispatch of UniversalParser.parse_file (the body of
its try block): the uff case chooses the strict grammar when the first
line opens with the strict header token and otherwise falls back (the
internal raise of the non-standard case lands in the except arm that runs
the fallback parser); excel and word content is processed as text. -/
def dispatchFormat (fmt content : String) (ff : FlowFile) (store : Store)
    (now : PDateTime) : DispatchOut :=
  if fmt = "uff" then
    let init := initPState store (some ff) now
    let fin :=
      if pyStartsWith (firstLine content) "ZHD|" then
        runLines strictParseRecord init (fileLines content)
      else runLines fallbackParseRecord init (fileLines content)
    .ok fin.store (fin.ffObj.getD ff) fin.stats
  else if fmt = "csv" then
    match csvBranch ⟨store, Stats.init, some ff, now⟩ content with
    | some st => .ok st.store (st.ffObj.getD ff) st.stats
    | none => .err store ff .csvSniffError
  else if fmt = "json" then
    match jsonBranch ⟨store, Stats.init, some ff, now⟩ content with
    | some st => .ok st.store (st.ffObj.getD ff) st.stats
    | none => .err store ff .jsonError
  else if fmt = "xml" then
    let st := xmlBranch ⟨store, Stats.init, some ff, now⟩ content
    .ok st.store (st.ffObj.getD ff) st.stats
  else if fmt = "txt" || fmt = "excel" || fmt = "word" then
    let st := txtBranch ⟨store, Stats.init, some ff, now⟩ content
    .ok st.store (st.ffObj.getD ff) st.stats
  else if fmt = "pdf" then
    let st := pdfBranch ⟨store, Stats.init, some ff, now⟩ content
    .ok st.store (st.ffObj.getD ff) st.stats
  else .err store ff (.unsupportedFormat fmt)

/-- Embeds UniversalParser.parse_file without the surrounding transaction:
checksum gate, format detection, FlowFile creation in Processing state,
dispatch, then the final record-count and status write (Imported on
success, Error when an exception escaped the dispatch). The returned store
reflects every write the Python code performed up to the return or
raise. -/
def universalParseInner (filename content : String) (store : Store)
    (now : PDateTime) : Store × Except ParseError (FlowFile × Stats) :=
  let checksum := checksumOf content
  match store.flowFiles.find? (fun ff => ff.checksum = some checksum) with
  | some prior => (store, .error (.duplicateContent prior.filename))
  | none =>
    let fmt := detectFileFormat filename content
    let created := createFlowFile store filename (pyToUpper fmt) "PROCESSING" checksum
    match dispatchFormat fmt content created.2 created.1 now with
    | .ok store2 ff2 stats =>
      let ffFinal := { ff2 with
        record_count := stats.meters_created + stats.readings_created,
        status := "IMPORTED" }
      (saveFlowFile store2 ffFinal, .ok (ffFinal, stats))
    | .err store2 ff2 e =>
      let ffErr := { ff2 with status := "ERROR" }
      (saveFlowFile store2 ffErr, .error e)

/-- Embeds UniversalParser.parse_file including the transaction.atomic
wrapper: an escaping exception rolls back every store write of the
attempt. -/
def universalParseFile (filename content : String) (store : Store)
    (now : PDateTime) : Store × Except ParseError (FlowFile × Stats) :=
  let r := universalParseInner filename content store now
  match r.2 with
  | .ok x => (r.1, .ok x)
  | .error e => (store, .error e)

/- ### The standalone parse_file entry points -/

/-- Embeds D0010StandardParser.parse_file without the transaction:
checksum gate (the filename-already-seen check only logs and never
blocks), FlowFile creation, the per-line loop, then the final record-count
computation — which reads the uninitialized stats key
meter_points_created: the dict lookup raises KeyError, the except arm
writes status Error and the exception propagates. -/
def d0010ParseFileInner (filename content : String) (store : Store)
    (now : PDateTime) : Store × Except ParseError (FlowFile × Stats) :=
  let checksum := checksumOf content
  match store.flowFiles.find? (fun ff => ff.checksum = some checksum) with
  | some prior => (store, .error (.duplicateContent prior.filename))
  | none =>
    let created := createFlowFile store filename "D0010" "PROCESSING" checksum
    let fin := runLines strictParseRecord
      (initPState created.1 (some created.2) now) (fileLines content)
    let ff2 := fin.ffObj.getD created.2
    match fin.stats.get? "meter_points_created" with
    | some mp =>
      let ffFinal := { ff2 with
        record_count := mp + fin.stats.meters_created + fin.stats.readings_created,
        status := "IMPORTED" }
      (saveFlowFile fin.store ffFinal, .ok (ffFinal, fin.stats))
    | none =>
      let ffErr := { ff2 with status := "ERROR" }
      (saveFlowFile fin.store ffErr, .error (.keyError "meter_points_created"))

/-- Embeds D0010StandardParser.parse_file with its transaction.atomic
wrapper. -/
def d0010ParseFile (filename content : String) (store : Store)
    (now : PDateTime) : Store × Except ParseError (FlowFile × Stats) :=
  let r := d0010ParseFileInner filename content store now
  match r.2 with
  | .ok x => (r.1, .ok x)
  | .error e => (store, .error e)

/-- Embeds FallbackParser.parse_file without the transaction: identical
shape to the strict entry point, dispatching to the fallback grammar, with
the same uninitialized meter_points_created stats key in the final
record-count computation. -/
def fallbackParseFileInner (filename content : String) (store : Store)
    (now : PDateTime) : Store × Except ParseError (FlowFile × Stats) :=
  let checksum := checksumOf content
  match store.flowFiles.find? (fun ff => ff.checksum = some checksum) with
  | some prior => (store, .error (.duplicateContent prior.filename))
  | none =>
    let created := createFlowFile store filename "UFF" "PROCESSING" checksum
    let fin := runLines fallbackParseRecord
      (initPState created.1 (some created.2) now) (fileLines content)
    let ff2 := fin.ffObj.getD created.2
    match fin.stats.get? "meter_points_created" with
    | some mp =>
      let ffFinal := { ff2 with
        record_count := mp + fin.stats.meters_created + fin.stats.readings_created,
        status := "IMPORTED" }
      (saveFlowFile fin.store ffFinal, .ok (ffFinal, fin.stats))
    | none =>
      let ffErr := { ff2 with status := "ERROR" }
      (saveFlowFile fin.store ffErr, .error (.keyError "meter_points_created"))

/-- Embeds FallbackParser.parse_file with its transaction.atomic
wrapper. -/
def fallbackParseFile (filename content : String) (store : Store)
    (now : PDateTime) : Store × Except ParseError (FlowFile × Stats) :=
  let r := fallbackParseFileInner filename content store now
  match r.2 with
  | .ok x => (r.1, .ok x)
  | .error e => (store, .error e)

/-- Embeds UniversalParser._parse_uff_file: by the first line's header
token, delegate the whole file to the strict or the fallback standalone
parser. -/
def parseUffFile (filename content : String) (store : Store)
    (now : PDateTime) : Store × Except ParseError (FlowFile × Stats) :=
  if pyStartsWith (firstLine content) "ZHD|" then
    d0010ParseFile filename content store now
  else fallbackParseFile filename content store now

/- ### Legacy D0010Parser (src/meter_readings/parser.py) -/

/-- Mutable state of the legacy D0010Parser. Its MeterPoint model does not
exist in models.py; the current meter point is modelled by its mpan
string, stored in the Meter's mpan field. -/
structure LegacyState where
  store : Store
  stats : Stats
  ffObj : Option FlowFile
  currentMpan : Option String
  currentMeter : Option String
  now : PDateTime
  deriving DecidableEq, Repr

/-- Embeds D0010Parser.parse_028_record, the one handler in the repository
that writes to an existing Meter row: on a get_or_create hit it re-points
the meter's flow_file to the current file and saves — every other field
keeps its first-writer value. Created rows default created_date to now
(the model field default). -/
def legacyParse028 (st : LegacyState) (fields : List String) : LegacyState :=
  if 2 ≤ fields.length ∧ st.currentMpan.isSome then
    let serial := fld fields 1
    let mtype := if 2 < fields.length then fldRaw fields 2 else "C"
    if serial = "" then st
    else
      let ffId := st.ffObj.map (fun f => f.id)
      match st.store.meters.find? (fun m => m.serial_number = serial) with
      | none =>
        let m : Meter :=
          ⟨serial, st.currentMpan.getD "", mtype, ffId, st.now⟩
        { st with
          store := { st.store with meters := st.store.meters ++ [m] },
          stats := { st.stats with meters_created := st.stats.meters_created + 1 },
          currentMeter := some serial }
      | some _ =>
        { st with
          store := { st.store with meters := st.store.meters.map (fun x =>
            if x.serial_number = serial then { x with flow_file := ffId } else x) },
          currentMeter := some serial }
  else st

/- ### Infrastructure lemmas -/

/-- Natural key of a reading row. -/
def rKey (r : Reading) : String × String × PDateTime × DecVal :=
  (r.meter_serial, r.register_id, r.reading_date, r.reading_value)

/-- Uniqueness of the reading natural key across the stored rows — the
constraint uniq_reading_natural_key of models.py. -/
def NoDupKeys (rs : List Reading) : Prop :=
  rs.Pairwise (fun a b => rKey a ≠ rKey b)

/-- Identity-relevant columns of a FlowFile row, the ones no parser
handler ever reassigns between creation and the final status write. -/
def ffCore (f : FlowFile) : Nat × String × String × Option String :=
  (f.id, f.filename, f.file_type, f.checksum)

theorem gocMeter_flowFiles (s : Store) (serial mpan mt : String) (ff : Option Nat)
    (cd : PDateTime) : (getOrCreateMeter s serial mpan mt ff cd).1.flowFiles = s.flowFiles := by
  unfold getOrCreateMeter; split <;> rfl

theorem gocMeter_readings (s : Store) (serial mpan mt : String) (ff : Option Nat)
    (cd : PDateTime) : (getOrCreateMeter s serial mpan mt ff cd).1.readings = s.readings := by
  unfold getOrCreateMeter; split <;> rfl

theorem gocMeter_meters (s : Store) (serial mpan mt : String) (ff : Option Nat)
    (cd : PDateTime) : ∃ t, (getOrCreateMeter s serial mpan mt ff cd).1.meters = s.meters ++ t := by
  unfold getOrCreateMeter
  split
  · exact ⟨[], by simp⟩
  · exact ⟨[⟨serial, mpan, mt, ff, cd⟩], rfl⟩

theorem gocReading_flowFiles (s : Store) (serial reg : String) (dt : PDateTime)
    (v : DecVal) (rt : String) (ff : Option Nat) :
    (getOrCreateReading s serial reg dt v rt ff).1.flowFiles = s.flowFiles := by
  unfold getOrCreateReading; split <;> rfl

theorem gocReading_meters (s : Store) (serial reg : String) (dt : PDateTime)
    (v : DecVal) (rt : String) (ff : Option Nat) :
    (getOrCreateReading s serial reg dt v rt ff).1.meters = s.meters := by
  unfold getOrCreateReading; split <;> rfl

theorem gocReading_mem (s : Store) (serial reg : String) (dt : PDateTime)
    (v : DecVal) (rt : String) (ff : Option Nat) :
    ∃ r ∈ (getOrCreateReading s serial reg dt v rt ff).1.readings,
      rKey r = (serial, reg, dt, v) := by
  unfold getOrCreateReading
  split
  case h_1 r heq =>
    refine ⟨r, List.mem_of_find?_eq_some heq, ?_⟩
    have := List.find?_some heq
    simp only [decide_eq_true_eq] at this
    obtain ⟨h1, h2, h3, h4⟩ := this
    simp [rKey, h1, h2, h3, h4]
  case h_2 heq =>
    exact ⟨⟨serial, reg, dt, v, rt, ff⟩, by simp, rfl⟩

theorem gocReading_sub (s : Store) (serial reg : String) (dt : PDateTime)
    (v : DecVal) (rt : String) (ff : Option Nat) :
    ∀ r ∈ (getOrCreateReading s serial reg dt v rt ff).1.readings,
      r ∈ s.readings ∨ rKey r = (serial, reg, dt, v) := by
  unfold getOrCreateReading
  split
  · exact fun r hr => Or.inl hr
  · intro r hr
    simp only [List.mem_append, List.mem_singleton] at hr
    rcases hr with h | h
    · exact Or.inl h
    · exact Or.inr (by simp [h, rKey])

theorem gocReading_len (s : Store) (serial reg : String) (dt : PDateTime)
    (v : DecVal) (rt : String) (ff : Option Nat) :
    (getOrCreateReading s serial reg dt v rt ff).1.readings.length ≤ s.readings.length + 1 := by
  unfold getOrCreateReading
  split
  · exact Nat.le_succ_of_le (Nat.le_refl _)
  · simp

theorem gocReading_dup (s : Store) (serial reg : String) (dt : PDateTime)
    (v : DecVal) (rt : String) (ff : Option Nat) (r : Reading)
    (h : s.readings.find? (fun r => r.meter_serial = serial ∧ r.register_id = reg ∧
        r.reading_date = dt ∧ r.reading_value = v) = some r) :
    getOrCreateReading s serial reg dt v rt ff = (s, false) := by
  unfold getOrCreateReading
  rw [h]

theorem gocReading_nodup (s : Store) (serial reg : String) (dt : PDateTime)
    (v : DecVal) (rt : String) (ff : Option Nat) (h : NoDupKeys s.readings) :
    NoDupKeys (getOrCreateReading s serial reg dt v rt ff).1.readings := by
  unfold getOrCreateReading
  split
  · exact h
  case h_2 heq =>
    have habs : ∀ r ∈ s.readings, rKey r ≠ (serial, reg, dt, v) := by
      intro r hr hk
      have := List.find?_eq_none.mp heq r hr
      simp only [decide_eq_true_eq] at this
      apply this
      simp only [rKey, Prod.mk.injEq] at hk
      exact ⟨hk.1, hk.2.1, hk.2.2.1, hk.2.2.2⟩
    unfold NoDupKeys at h ⊢
    rw [List.pairwise_append]
    refine ⟨h, List.pairwise_singleton _ _, ?_⟩
    intro a ha b hb
    simp only [List.mem_singleton] at hb
    subst hb
    intro hk
    exact habs a ha (by simpa [rKey] using hk)

theorem saveFlowFile_meters (s : Store) (ff : FlowFile) :
    (saveFlowFile s ff).meters = s.meters := rfl

theorem saveFlowFile_readings (s : Store) (ff : FlowFile) :
    (saveFlowFile s ff).readings = s.readings := rfl

/-- A function of the state fixed by every element step is fixed by the
fold. -/
theorem foldl_fix {σ α β : Type _} (g : σ → β) (f : σ → α → σ)
    (hf : ∀ s a, g (f s a) = g s) (l : List α) (s : σ) : g (l.foldl f s) = g s := by
  induction l generalizing s with
  | nil => rfl
  | cons x xs ih => rw [List.foldl_cons, ih, hf]

/-- A predicate preserved by every element step is preserved by the
fold. -/
theorem foldl_pred {σ α : Type _} (P : σ → Prop) (f : σ → α → σ)
    (hf : ∀ s a, P s → P (f s a)) (l : List α) (s : σ) (h : P s) : P (l.foldl f s) := by
  induction l generalizing s with
  | nil => exact h
  | cons x xs ih => exact ih _ (hf _ _ h)

/-- A list-valued function of the state that each step only appends to is
only appended to by the fold. -/
theorem foldl_grows {σ α β : Type _} (g : σ → List β) (f : σ → α → σ)
    (hf : ∀ s a, ∃ t, g (f s a) = g s ++ t) (l : List α) (s : σ) :
    ∃ t, g (l.foldl f s) = g s ++ t := by
  induction l generalizing s with
  | nil => exact ⟨[], by simp⟩
  | cons x xs ih =>
    obtain ⟨t1, h1⟩ := hf s x
    obtain ⟨t2, h2⟩ := ih (f s x)
    exact ⟨t1 ++ t2, by rw [List.foldl_cons, h2, h1, List.append_assoc]⟩


theorem gocMeter_nodup (s : Store) (serial mpan mt : String) (ff : Option Nat)
    (cd : PDateTime) (h : NoDupKeys s.readings) :
    NoDupKeys (getOrCreateMeter s serial mpan mt ff cd).1.readings := by
  rw [gocMeter_readings]; exact h

theorem strictParseZHD_store (st : PState) (fields : List String) :
    (strictParseZHD st fields).store = st.store := by
  unfold strictParseZHD
  dsimp only
  repeat' split
  all_goals rfl

theorem strictParseZHD_ffCore (st : PState) (fields : List String) :
    (strictParseZHD st fields).ffObj.map ffCore = st.ffObj.map ffCore := by
  unfold strictParseZHD
  dsimp only
  repeat' split
  all_goals simp_all [ffCore]

theorem strictParse026_store (st : PState) (fields : List String) :
    (strictParse026 st fields).store = st.store := by
  unfold strictParse026
  dsimp only
  repeat' split
  all_goals rfl

theorem strictParse026_ffObj (st : PState) (fields : List String) :
    (strictParse026 st fields).ffObj = st.ffObj := by
  unfold strictParse026
  dsimp only
  repeat' split
  all_goals rfl

theorem strictParse028_flowFiles (st : PState) (fields : List String) :
    (strictParse028 st fields).store.flowFiles = st.store.flowFiles := by
  unfold strictParse028
  dsimp only
  repeat' split
  all_goals simp [gocMeter_flowFiles, gocReading_flowFiles]

theorem strictParse028_ffObj (st : PState) (fields : List String) :
    (strictParse028 st fields).ffObj = st.ffObj := by
  unfold strictParse028
  dsimp only
  repeat' split
  all_goals rfl

theorem strictParse028_meters (st : PState) (fields : List String) :
    ∃ t, (strictParse028 st fields).store.meters = st.store.meters ++ t := by
  unfold strictParse028
  dsimp only
  repeat' split
  all_goals try simp only [gocReading_meters]
  all_goals
    first
    | exact ⟨[], (List.append_nil _).symm⟩
    | exact gocMeter_meters _ _ _ _ _ _

theorem strictParse028_nodup (st : PState) (fields : List String)
    (h : NoDupKeys st.store.readings) :
    NoDupKeys (strictParse028 st fields).store.readings := by
  unfold strictParse028
  dsimp only
  repeat' split
  all_goals solve_by_elim [gocReading_nodup, gocMeter_nodup]

theorem strictParse029_flowFiles (st : PState) (fields : List String) :
    (strictParse029 st fields).store.flowFiles = st.store.flowFiles := by
  unfold strictParse029
  dsimp only
  repeat' split
  all_goals simp [gocReading_flowFiles]

theorem strictParse029_ffObj (st : PState) (fields : List String) :
    (strictParse029 st fields).ffObj = st.ffObj := by
  unfold strictParse029
  dsimp only
  repeat' split
  all_goals rfl

theorem strictParse029_meters (st : PState) (fields : List String) :
    (strictParse029 st fields).store.meters = st.store.meters := by
  unfold strictParse029
  dsimp only
  repeat' split
  all_goals simp [gocReading_meters]

theorem strictParse029_nodup (st : PState) (fields : List String)
    (h : NoDupKeys st.store.readings) :
    NoDupKeys (strictParse029 st fields).store.readings := by
  unfold strictParse029
  dsimp only
  repeat' split
  all_goals solve_by_elim [gocReading_nodup]

theorem strictParseRecord_flowFiles (st : PState) (line : String) :
    (strictParseRecord st line).store.flowFiles = st.store.flowFiles := by
  unfold strictParseRecord
  dsimp only
  repeat' split
  all_goals
    simp [strictParseZHD_store, strictParse026_store, strictParse028_flowFiles,
      strictParse029_flowFiles, strictParseZTR]

theorem strictParseRecord_ffCore (st : PState) (line : String) :
    (strictParseRecord st line).ffObj.map ffCore = st.ffObj.map ffCore := by
  unfold strictParseRecord
  dsimp only
  repeat' split
  all_goals
    simp [strictParseZHD_ffCore, strictParse026_ffObj, strictParse028_ffObj,
      strictParse029_ffObj, strictParseZTR]

theorem strictParseRecord_meters (st : PState) (line : String) :
    ∃ t, (strictParseRecord st line).store.meters = st.store.meters ++ t := by
  unfold strictParseRecord
  dsimp only
  repeat' split
  all_goals
    first
    | exact strictParse028_meters _ _
    | exact ⟨[], by simp [strictParseZHD_store, strictParse026_store,
        strictParse029_meters, strictParseZTR]⟩

theorem strictParseRecord_nodup (st : PState) (line : String)
    (h : NoDupKeys st.store.readings) :
    NoDupKeys (strictParseRecord st line).store.readings := by
  unfold strictParseRecord
  dsimp only
  repeat' split
  all_goals
    first
    | exact h
    | (rw [strictParseZHD_store]; exact h)
    | (rw [strictParse026_store]; exact h)
    | exact strictParse028_nodup _ _ h
    | exact strictParse029_nodup _ _ h

theorem fallbackParseZHV_store (st : PState) (fields : List String) :
    (fallbackParseZHV st fields).store = st.store := by
  unfold fallbackParseZHV
  dsimp only
  repeat' split
  all_goals rfl

theorem fallbackParseZHV_ffCore (st : PState) (fields : List String) :
    (fallbackParseZHV st fields).ffObj.map ffCore = st.ffObj.map ffCore := by
  unfold fallbackParseZHV
  dsimp only
  repeat' split
  all_goals simp_all [ffCore]

theorem fallbackParse026_store (st : PState) (fields : List String) :
    (fallbackParse026 st fields).store = st.store := by
  unfold fallbackParse026
  dsimp only
  repeat' split
  all_goals rfl

theorem fallbackParse026_ffObj (st : PState) (fields : List String) :
    (fallbackParse026 st fields).ffObj = st.ffObj := by
  unfold fallbackParse026
  dsimp only
  repeat' split
  all_goals rfl

theorem fallbackParse028_flowFiles (st : PState) (fields : List String) :
    (fallbackParse028 st fields).store.flowFiles = st.store.flowFiles := by
  unfold fallbackParse028
  dsimp only
  repeat' split
  all_goals simp [gocMeter_flowFiles]

theorem fallbackParse028_ffObj (st : PState) (fields : List String) :
    (fallbackParse028 st fields).ffObj = st.ffObj := by
  unfold fallbackParse028
  dsimp only
  repeat' split
  all_goals rfl

theorem fallbackParse028_meters (st : PState) (fields : List String) :
    ∃ t, (fallbackParse028 st fields).store.meters = st.store.meters ++ t := by
  unfold fallbackParse028
  dsimp only
  repeat' split
  all_goals
    first
    | exact ⟨[], (List.append_nil _).symm⟩
    | exact gocMeter_meters _ _ _ _ _ _

theorem fallbackParse028_nodup (st : PState) (fields : List String)
    (h : NoDupKeys st.store.readings) :
    NoDupKeys (fallbackParse028 st fields).store.readings := by
  unfold fallbackParse028
  dsimp only
  repeat' split
  all_goals solve_by_elim [gocMeter_nodup]

theorem fallbackParse030_flowFiles (st : PState) (fields : List String) :
    (fallbackParse030 st fields).store.flowFiles = st.store.flowFiles := by
  unfold fallbackParse030
  dsimp only
  repeat' split
  all_goals simp [gocReading_flowFiles]

theorem fallbackParse030_ffObj (st : PState) (fields : List String) :
    (fallbackParse030 st fields).ffObj = st.ffObj := by
  unfold fallbackParse030
  dsimp only
  repeat' split
  all_goals rfl

theorem fallbackParse030_meters (st : PState) (fields : List String) :
    (fallbackParse030 st fields).store.meters = st.store.meters := by
  unfold fallbackParse030
  dsimp only
  repeat' split
  all_goals simp [gocReading_meters]

theorem fallbackParse030_nodup (st : PState) (fields : List String)
    (h : NoDupKeys st.store.readings) :
    NoDupKeys (fallbackParse030 st fields).store.readings := by
  unfold fallbackParse030
  dsimp only
  repeat' split
  all_goals solve_by_elim [gocReading_nodup]

theorem fallbackParseRecord_flowFiles (st : PState) (line : String) :
    (fallbackParseRecord st line).store.flowFiles = st.store.flowFiles := by
  unfold fallbackParseRecord
  dsimp only
  repeat' split
  all_goals
    simp [fallbackParseZHV_store, fallbackParse026_store, fallbackParse028_flowFiles,
      fallbackParse030_flowFiles, fallbackParseZPT]

theorem fallbackParseRecord_ffCore (st : PState) (line : String) :
    (fallbackParseRecord st line).ffObj.map ffCore = st.ffObj.map ffCore := by
  unfold fallbackParseRecord
  dsimp only
  repeat' split
  all_goals
    simp [fallbackParseZHV_ffCore, fallbackParse026_ffObj, fallbackParse028_ffObj,
      fallbackParse030_ffObj, fallbackParseZPT]

theorem fallbackParseRecord_meters (st : PState) (line : String) :
    ∃ t, (fallbackParseRecord st line).store.meters = st.store.meters ++ t := by
  unfold fallbackParseRecord
  dsimp only
  repeat' split
  all_goals
    first
    | exact fallbackParse028_meters _ _
    | exact ⟨[], by simp [fallbackParseZHV_store, fallbackParse026_store,
        fallbackParse030_meters, fallbackParseZPT]⟩

theorem fallbackParseRecord_nodup (st : PState) (line : String)
    (h : NoDupKeys st.store.readings) :
    NoDupKeys (fallbackParseRecord st line).store.readings := by
  unfold fallbackParseRecord
  dsimp only
  repeat' split
  all_goals
    first
    | exact h
    | (rw [fallbackParseZHV_store]; exact h)
    | (rw [fallbackParse026_store]; exact h)
    | exact fallbackParse028_nodup _ _ h
    | exact fallbackParse030_nodup _ _ h

theorem runLines_flowFiles (step : PState → String → PState)
    (hstep : ∀ st l, (step st l).store.flowFiles = st.store.flowFiles)
    (init : PState) (ls : List String) :
    (runLines step init ls).store.flowFiles = init.store.flowFiles := by
  unfold runLines
  apply foldl_fix (fun st : PState => st.store.flowFiles)
  intro s a
  dsimp only
  split
  · rfl
  · exact hstep _ _

theorem runLines_ffCore (step : PState → String → PState)
    (hstep : ∀ st l, (step st l).ffObj.map ffCore = st.ffObj.map ffCore)
    (init : PState) (ls : List String) :
    (runLines step init ls).ffObj.map ffCore = init.ffObj.map ffCore := by
  unfold runLines
  apply foldl_fix (fun st : PState => st.ffObj.map ffCore)
  intro s a
  dsimp only
  split
  · rfl
  · exact hstep _ _

theorem runLines_meters (step : PState → String → PState)
    (hstep : ∀ st l, ∃ t, (step st l).store.meters = st.store.meters ++ t)
    (init : PState) (ls : List String) :
    ∃ t, (runLines step init ls).store.meters = init.store.meters ++ t := by
  unfold runLines
  apply foldl_grows (fun st : PState => st.store.meters)
  intro s a
  dsimp only
  split
  · exact ⟨[], (List.append_nil _).symm⟩
  · exact hstep _ _

theorem runLines_nodup (step : PState → String → PState)
    (hstep : ∀ st l, NoDupKeys st.store.readings → NoDupKeys (step st l).store.readings)
    (init : PState) (ls : List String) (h : NoDupKeys init.store.readings) :
    NoDupKeys (runLines step init ls).store.readings := by
  unfold runLines
  apply foldl_pred (fun st : PState => NoDupKeys st.store.readings)
  · intro s a hs
    dsimp only
    split
    · exact hs
    · exact hstep _ _ hs
  · exact h

theorem createMeterData_flowFiles (st : UniState) (mpan serial value : String)
    (date : Option String) :
    (createMeterData st mpan serial value date).store.flowFiles = st.store.flowFiles := by
  unfold createMeterData
  dsimp only
  repeat' split
  all_goals simp [gocMeter_flowFiles, gocReading_flowFiles]

theorem createMeterData_ffObj (st : UniState) (mpan serial value : String)
    (date : Option String) :
    (createMeterData st mpan serial value date).ffObj = st.ffObj := by
  unfold createMeterData
  dsimp only
  repeat' split
  all_goals rfl

theorem createMeterData_now (st : UniState) (mpan serial value : String)
    (date : Option String) :
    (createMeterData st mpan serial value date).now = st.now := by
  unfold createMeterData
  dsimp only
  repeat' split
  all_goals rfl

theorem createMeterData_meters (st : UniState) (mpan serial value : String)
    (date : Option String) :
    ∃ t, (createMeterData st mpan serial value date).store.meters = st.store.meters ++ t := by
  unfold createMeterData
  dsimp only
  repeat' split
  all_goals try simp only [gocReading_meters]
  all_goals
    first
    | exact ⟨[], (List.append_nil _).symm⟩
    | exact gocMeter_meters _ _ _ _ _ _

theorem createMeterData_nodup (st : UniState) (mpan serial value : String)
    (date : Option String) (h : NoDupKeys st.store.readings) :
    NoDupKeys (createMeterData st mpan serial value date).store.readings := by
  unfold createMeterData
  dsimp only
  repeat' split
  all_goals solve_by_elim [gocReading_nodup, gocMeter_nodup]

theorem txtExtractParts_flowFiles (st : UniState) (parts : List String) :
    (txtExtractParts st parts).store.flowFiles = st.store.flowFiles := by
  unfold txtExtractParts
  dsimp only
  repeat' split
  all_goals simp [createMeterData_flowFiles]

theorem txtExtractParts_ffObj (st : UniState) (parts : List String) :
    (txtExtractParts st parts).ffObj = st.ffObj := by
  unfold txtExtractParts
  dsimp only
  repeat' split
  all_goals simp [createMeterData_ffObj]

theorem txtExtractParts_meters (st : UniState) (parts : List String) :
    ∃ t, (txtExtractParts st parts).store.meters = st.store.meters ++ t := by
  unfold txtExtractParts
  dsimp only
  repeat' split
  all_goals
    first
    | exact createMeterData_meters _ _ _ _ _
    | exact ⟨[], (List.append_nil _).symm⟩

theorem txtExtractParts_nodup (st : UniState) (parts : List String)
    (h : NoDupKeys st.store.readings) :
    NoDupKeys (txtExtractParts st parts).store.readings := by
  unfold txtExtractParts
  dsimp only
  repeat' split
  all_goals solve_by_elim [createMeterData_nodup]

theorem txtLineStep_flowFiles (st : UniState) (line : String) :
    (txtLineStep st line).store.flowFiles = st.store.flowFiles := by
  unfold txtLineStep
  dsimp only
  repeat' split
  all_goals simp [txtExtractParts_flowFiles]

theorem txtLineStep_ffObj (st : UniState) (line : String) :
    (txtLineStep st line).ffObj = st.ffObj := by
  unfold txtLineStep
  dsimp only
  repeat' split
  all_goals simp [txtExtractParts_ffObj]

theorem txtLineStep_meters (st : UniState) (line : String) :
    ∃ t, (txtLineStep st line).store.meters = st.store.meters ++ t := by
  unfold txtLineStep
  dsimp only
  repeat' split
  all_goals
    first
    | exact txtExtractParts_meters _ _
    | exact ⟨[], (List.append_nil _).symm⟩

theorem txtLineStep_nodup (st : UniState) (line : String)
    (h : NoDupKeys st.store.readings) :
    NoDupKeys (txtLineStep st line).store.readings := by
  unfold txtLineStep
  dsimp only
  repeat' split
  all_goals solve_by_elim [txtExtractParts_nodup]

theorem csvRowStep_flowFiles (st : UniState) (row : List (String × String)) :
    (csvRowStep st row).store.flowFiles = st.store.flowFiles := by
  unfold csvRowStep
  repeat' split
  all_goals simp [createMeterData_flowFiles]

theorem csvRowStep_ffObj (st : UniState) (row : List (String × String)) :
    (csvRowStep st row).ffObj = st.ffObj := by
  unfold csvRowStep
  repeat' split
  all_goals simp [createMeterData_ffObj]

theorem csvRowStep_meters (st : UniState) (row : List (String × String)) :
    ∃ t, (csvRowStep st row).store.meters = st.store.meters ++ t := by
  unfold csvRowStep
  repeat' split
  all_goals
    first
    | exact createMeterData_meters _ _ _ _ _
    | exact ⟨[], (List.append_nil _).symm⟩

theorem csvRowStep_nodup (st : UniState) (row : List (String × String))
    (h : NoDupKeys st.store.readings) :
    NoDupKeys (csvRowStep st row).store.readings := by
  unfold csvRowStep
  repeat' split
  all_goals solve_by_elim [createMeterData_nodup]

theorem processJsonItem_flowFiles (st : UniState) (item : Json) :
    (processJsonItem st item).store.flowFiles = st.store.flowFiles := by
  unfold processJsonItem
  repeat' split
  all_goals simp [createMeterData_flowFiles]

theorem processJsonItem_ffObj (st : UniState) (item : Json) :
    (processJsonItem st item).ffObj = st.ffObj := by
  unfold processJsonItem
  repeat' split
  all_goals simp [createMeterData_ffObj]

theorem processJsonItem_meters (st : UniState) (item : Json) :
    ∃ t, (processJsonItem st item).store.meters = st.store.meters ++ t := by
  unfold processJsonItem
  repeat' split
  all_goals
    first
    | exact createMeterData_meters _ _ _ _ _
    | exact ⟨[], (List.append_nil _).symm⟩

theorem processJsonItem_nodup (st : UniState) (item : Json)
    (h : NoDupKeys st.store.readings) :
    NoDupKeys (processJsonItem st item).store.readings := by
  unfold processJsonItem
  repeat' split
  all_goals solve_by_elim [createMeterData_nodup]

theorem xmlItemStep_flowFiles (st : UniState) (attrs : List (String × String)) :
    (xmlItemStep st attrs).store.flowFiles = st.store.flowFiles := by
  unfold xmlItemStep
  repeat' split
  all_goals simp [createMeterData_flowFiles]

theorem xmlItemStep_ffObj (st : UniState) (attrs : List (String × String)) :
    (xmlItemStep st attrs).ffObj = st.ffObj := by
  unfold xmlItemStep
  repeat' split
  all_goals simp [createMeterData_ffObj]

theorem xmlItemStep_meters (st : UniState) (attrs : List (String × String)) :
    ∃ t, (xmlItemStep st attrs).store.meters = st.store.meters ++ t := by
  unfold xmlItemStep
  repeat' split
  all_goals
    first
    | exact createMeterData_meters _ _ _ _ _
    | exact ⟨[], (List.append_nil _).symm⟩

theorem xmlItemStep_nodup (st : UniState) (attrs : List (String × String))
    (h : NoDupKeys st.store.readings) :
    NoDupKeys (xmlItemStep st attrs).store.readings := by
  unfold xmlItemStep
  repeat' split
  all_goals solve_by_elim [createMeterData_nodup]
/-- Store component of a dispatch outcome. -/
def doutStore : DispatchOut → Store
  | .ok s _ _ => s
  | .err s _ _ => s

/-- FlowFile component of a dispatch outcome. -/
def doutFF : DispatchOut → FlowFile
  | .ok _ f _ => f
  | .err _ f _ => f

theorem map_ffCore_getD {o : Option FlowFile} {ff : FlowFile}
    (h : o.map ffCore = (some ff).map ffCore) : ffCore (o.getD ff) = ffCore ff := by
  cases o with
  | none => simp at h
  | some f => simpa using h

theorem txtBranch_inv (st : UniState) (content : String) :
    (txtBranch st content).store.flowFiles = st.store.flowFiles ∧
    (txtBranch st content).ffObj = st.ffObj := by
  unfold txtBranch
  exact ⟨foldl_fix (fun s : UniState => s.store.flowFiles) _ txtLineStep_flowFiles _ st,
    foldl_fix (fun s : UniState => s.ffObj) _ txtLineStep_ffObj _ st⟩

theorem csvBranch_inv (st : UniState) (content : String) (st' : UniState)
    (h : csvBranch st content = some st') :
    st'.store.flowFiles = st.store.flowFiles ∧ st'.ffObj = st.ffObj := by
  unfold csvBranch at h
  split at h
  · exact Option.noConfusion h
  · obtain rfl := Option.some.inj h
    exact ⟨foldl_fix (fun s : UniState => s.store.flowFiles) _ csvRowStep_flowFiles _ st,
      foldl_fix (fun s : UniState => s.ffObj) _ csvRowStep_ffObj _ st⟩

theorem jsonBranch_inv (st : UniState) (content : String) (st' : UniState)
    (h : jsonBranch st content = some st') :
    st'.store.flowFiles = st.store.flowFiles ∧ st'.ffObj = st.ffObj := by
  unfold jsonBranch at h
  repeat' split at h
  all_goals try exact Option.noConfusion h
  all_goals obtain rfl := Option.some.inj h
  all_goals
    first
    | exact ⟨foldl_fix (fun s : UniState => s.store.flowFiles) _ processJsonItem_flowFiles _ st,
        foldl_fix (fun s : UniState => s.ffObj) _ processJsonItem_ffObj _ st⟩
    | exact ⟨processJsonItem_flowFiles _ _, processJsonItem_ffObj _ _⟩
    | exact ⟨rfl, rfl⟩

theorem xmlBranch_inv (st : UniState) (content : String) :
    (xmlBranch st content).store.flowFiles = st.store.flowFiles ∧
    (xmlBranch st content).ffObj = st.ffObj := by
  unfold xmlBranch
  exact ⟨foldl_fix (fun s : UniState => s.store.flowFiles) _ xmlItemStep_flowFiles _ st,
    foldl_fix (fun s : UniState => s.ffObj) _ xmlItemStep_ffObj _ st⟩

theorem parsePdfTextContent_inv (st : UniState) (text : String) :
    (parsePdfTextContent st text).store.flowFiles = st.store.flowFiles ∧
    (parsePdfTextContent st text).ffObj.map ffCore = st.ffObj.map ffCore := by
  unfold parsePdfTextContent
  dsimp only
  repeat' split
  · constructor
    · exact runLines_flowFiles _ strictParseRecord_flowFiles _ _
    · exact runLines_ffCore _ strictParseRecord_ffCore _ _
  · constructor
    · exact runLines_flowFiles _ fallbackParseRecord_flowFiles _ _
    · exact runLines_ffCore _ fallbackParseRecord_ffCore _ _
  · constructor
    · exact foldl_fix (fun s : UniState => s.store.flowFiles) _ txtLineStep_flowFiles _ st
    · rw [foldl_fix (fun s : UniState => s.ffObj) _ txtLineStep_ffObj _ st]

theorem pdfBranch_inv (st : UniState) (content : String) :
    (pdfBranch st content).store.flowFiles = st.store.flowFiles ∧
    (pdfBranch st content).ffObj.map ffCore = st.ffObj.map ffCore := by
  unfold pdfBranch
  split
  · exact parsePdfTextContent_inv _ _
  · exact ⟨createMeterData_flowFiles _ _ _ _ _, by rw [createMeterData_ffObj]⟩

set_option maxHeartbeats 1000000 in
theorem dispatch_inv (fmt content : String) (ff : FlowFile) (store : Store)
    (now : PDateTime) :
    (doutStore (dispatchFormat fmt content ff store now)).flowFiles = store.flowFiles ∧
    ffCore (doutFF (dispatchFormat fmt content ff store now)) = ffCore ff := by
  unfold dispatchFormat
  dsimp only
  repeat' split
  all_goals dsimp only [doutStore, doutFF]
  all_goals
    first
    | exact ⟨runLines_flowFiles _ strictParseRecord_flowFiles _ _,
        map_ffCore_getD (runLines_ffCore _ strictParseRecord_ffCore _ _)⟩
    | exact ⟨runLines_flowFiles _ fallbackParseRecord_flowFiles _ _,
        map_ffCore_getD (runLines_ffCore _ fallbackParseRecord_ffCore _ _)⟩
    | (rename_i st' h
       refine ⟨(csvBranch_inv _ _ _ h).1, ?_⟩
       rw [(csvBranch_inv _ _ _ h).2]
       rfl)
    | (rename_i st' h
       refine ⟨(jsonBranch_inv _ _ _ h).1, ?_⟩
       rw [(jsonBranch_inv _ _ _ h).2]
       rfl)
    | (refine ⟨(xmlBranch_inv _ _).1, ?_⟩
       rw [(xmlBranch_inv _ _).2]
       rfl)
    | (refine ⟨(txtBranch_inv _ _).1, ?_⟩
       rw [(txtBranch_inv _ _).2]
       rfl)
    | exact ⟨(pdfBranch_inv _ _).1, map_ffCore_getD (pdfBranch_inv _ _).2⟩
    | exact ⟨rfl, rfl⟩

/- ### Claim theorems -/

/-- Example clock value used by concrete witnesses. -/
def exNow : PDateTime := ⟨2024, 1, 1, 0, 0, 0⟩

/-- Empty store used by concrete witnesses. -/
def exStore : Store := ⟨[], [], [], 1⟩

/-- C1: on every parse_file entry point (UniversalParser, D0010StandardParser,
FallbackParser), a file whose content fingerprint already has a FlowFile row
in the store is rejected with a DuplicateContent error naming the previously
imported file, and the store is returned unchanged — no FlowFile row is
created for the attempt and no Meter or RegisterReading rows are added. -/
theorem duplicate_content_rejected_c1
    (store : Store) (filename content : String) (now : PDateTime) (prior : FlowFile)
    (h : store.flowFiles.find?
        (fun ff => ff.checksum = some (checksumOf content)) = some prior) :
    universalParseInner filename content store now
        = (store, .error (.duplicateContent prior.filename)) ∧
    d0010ParseFileInner filename content store now
        = (store, .error (.duplicateContent prior.filename)) ∧
    fallbackParseFileInner filename content store now
        = (store, .error (.duplicateContent prior.filename)) := by
  refine ⟨?_, ?_, ?_⟩
  · unfold universalParseInner
    dsimp only
    rw [h]
  · unfold d0010ParseFileInner
    dsimp only
    rw [h]
  · unfold fallbackParseFileInner
    dsimp only
    rw [h]

/-- Prior imported row used by the C1 witness. -/
def c1Prior : FlowFile :=
  { id := 1, filename := "first.uff", file_type := "UFF", record_count := 2,
    status := "IMPORTED", checksum := some "SAME BYTES", sequence_number := "",
    version := "", rec_type := "", sender := "", receiver := "", creation_date := none }

/-- Store already holding the prior import, used by the C1 witness. -/
def c1Store : Store := ⟨[c1Prior], [], [], 2⟩

/-- Witness for C1 at a concrete store and content. -/
theorem duplicate_content_rejected_c1_witness :
    universalParseInner "second.uff" "SAME BYTES" c1Store exNow
        = (c1Store, .error (.duplicateContent "first.uff")) ∧
    d0010ParseFileInner "second.uff" "SAME BYTES" c1Store exNow
        = (c1Store, .error (.duplicateContent "first.uff")) ∧
    fallbackParseFileInner "second.uff" "SAME BYTES" c1Store exNow
        = (c1Store, .error (.duplicateContent "first.uff")) :=
  duplicate_content_rejected_c1 c1Store "second.uff" "SAME BYTES" exNow c1Prior (by decide)

/-- Well-formed strict-grammar file on which every line parses cleanly:
header, metering point, one meter-detail record with a distinct previous
date, trailer. -/
def c3Content : String :=
  "ZHD|0001|D0010002|X|ZZZ|20160302|153151|APP\n026|1200023305967|V\n028|01|T|kWh|SER1|A|20160221|000000|20160222|120000|100.5|N\nZTR|2|CHK"

/-- Well-formed fallback-grammar file on which every line parses
cleanly. -/
def c3FbContent : String :=
  "ZHV|0001|D0010002|X|ZZZ|20160302|153151|APP\n026|123|V\n028|SER9\n030|S|20160222120000|42.5|x|y|T|N\nZPT|4"

/-- C3 (code bug): on a file whose per-line processing completes without
any file-level error — one meter and two readings are created — the
standalone D0010StandardParser.parse_file and FallbackParser.parse_file do
not write the record count and Imported status: the final record-count
computation reads the stats key meter_points_created, which their stats
dicts never initialize, so a KeyError is raised, the status is set to
Error (a write the surrounding transaction then rolls back), and the call
raises instead of returning. -/
theorem parse_file_final_write_keyerror_c3 :
    (d0010ParseFile "readings.uff" c3Content exStore exNow).2
        = .error (.keyError "meter_points_created") ∧
    (d0010ParseFile "readings.uff" c3Content exStore exNow).1 = exStore ∧
    ((d0010ParseFileInner "readings.uff" c3Content exStore exNow).1.flowFiles.map
        (fun f => f.status)) = ["ERROR"] ∧
    (d0010ParseFileInner "readings.uff" c3Content exStore exNow).1.meters.length = 1 ∧
    (d0010ParseFileInner "readings.uff" c3Content exStore exNow).1.readings.length = 2 ∧
    (fallbackParseFile "readings2.uff" c3FbContent exStore exNow).2
        = .error (.keyError "meter_points_created") ∧
    ((fallbackParseFileInner "readings2.uff" c3FbContent exStore exNow).1.flowFiles.map
        (fun f => f.status)) = ["ERROR"] ∧
    (fallbackParseFileInner "readings2.uff" c3FbContent exStore exNow).1.meters.length = 1 ∧
    (fallbackParseFileInner "readings2.uff" c3FbContent exStore exNow).1.readings.length = 1 := by
  refine ⟨?_, ?_, ?_, ?_, ?_, ?_, ?_, ?_, ?_⟩ <;> rfl

/-- C4: inside UniversalParser.parse_file, a grammar file whose first line
opens with the strict header token has every line dispatched through the
strict parser's parse_record, and any other grammar file has every line
dispatched through the fallback parser's parse_record — one grammar for
the whole file, never mixed; _parse_uff_file delegates whole files by the
same test. -/
theorem grammar_selection_c4 (filename content : String) (ff : FlowFile)
    (store : Store) (now : PDateTime) :
    (pyStartsWith (firstLine content) "ZHD|" = true →
      dispatchFormat "uff" content ff store now =
        (let fin := runLines strictParseRecord (initPState store (some ff) now)
            (fileLines content)
         DispatchOut.ok fin.store (fin.ffObj.getD ff) fin.stats)) ∧
    (pyStartsWith (firstLine content) "ZHD|" = false →
      dispatchFormat "uff" content ff store now =
        (let fin := runLines fallbackParseRecord (initPState store (some ff) now)
            (fileLines content)
         DispatchOut.ok fin.store (fin.ffObj.getD ff) fin.stats)) ∧
    (pyStartsWith (firstLine content) "ZHD|" = true →
      parseUffFile filename content store now = d0010ParseFile filename content store now) ∧
    (pyStartsWith (firstLine content) "ZHD|" = false →
      parseUffFile filename content store now = fallbackParseFile filename content store now) := by
  refine ⟨fun h => ?_, fun h => ?_, fun h => ?_, fun h => ?_⟩
  · unfold dispatchFormat
    dsimp only
    rw [if_pos rfl, if_pos h]
  · unfold dispatchFormat
    dsimp only
    rw [if_pos rfl, if_neg (by simp [h])]
  · unfold parseUffFile
    rw [if_pos h]
  · unfold parseUffFile
    rw [if_neg (by simp [h])]

/-- Witness for C4: a two-line strict file and a two-line fallback file at
concrete inputs. -/
theorem grammar_selection_c4_witness :
    (dispatchFormat "uff" "ZHD|1|2|3|4|5|6|7\n026|1200023305967|V" c1Prior exStore exNow =
      (let fin := runLines strictParseRecord (initPState exStore (some c1Prior) exNow)
          (fileLines "ZHD|1|2|3|4|5|6|7\n026|1200023305967|V")
       DispatchOut.ok fin.store (fin.ffObj.getD c1Prior) fin.stats)) ∧
    (dispatchFormat "uff" "ZHV|1|2|3|4|5|6|7\n026|9|V" c1Prior exStore exNow =
      (let fin := runLines fallbackParseRecord (initPState exStore (some c1Prior) exNow)
          (fileLines "ZHV|1|2|3|4|5|6|7\n026|9|V")
       DispatchOut.ok fin.store (fin.ffObj.getD c1Prior) fin.stats)) :=
  ⟨(grammar_selection_c4 "a.uff" "ZHD|1|2|3|4|5|6|7\n026|1200023305967|V" c1Prior exStore
      exNow).1 (by decide),
    (grammar_selection_c4 "a.uff" "ZHV|1|2|3|4|5|6|7\n026|9|V" c1Prior exStore
      exNow).2.1 (by decide)⟩

theorem isPrefixOf_head (a : Char) (as bs : List Char)
    (h : List.isPrefixOf (a :: as) bs = true) : List.isPrefixOf [a] bs = true := by
  cases bs with
  | nil => simp [List.isPrefixOf] at h
  | cons b bs' =>
    simp [List.isPrefixOf] at h ⊢
    exact h.1

theorem startsWith_xml_collapse (s : String) :
    (pyStartsWith s "<?xml" || pyStartsWith s "<") = pyStartsWith s "<" := by
  cases h2 : pyStartsWith s "<?xml" with
  | false => simp [h2]
  | true =>
    have h1 : pyStartsWith s "<" = true := by
      unfold pyStartsWith at h2 ⊢
      exact isPrefixOf_head '<' ['?', 'x', 'm', 'l'] s.data h2
    simp [h2, h1]

/-- Extension table of the format detector: a known extension maps
directly to its format tag (decision step one). -/
def extensionTag (filename : String) : Option String :=
  let fn := pyToLower filename
  if pyEndsWith fn ".uff" then some "uff"
  else if pyEndsWith fn ".csv" then some "csv"
  else if pyEndsWith fn ".json" then some "json"
  else if pyEndsWith fn ".xml" then some "xml"
  else if pyEndsWith fn ".txt" then some "txt"
  else if pyEndsWith fn ".pdf" then some "pdf"
  else if pyEndsWith fn ".xlsx" || pyEndsWith fn ".xls" then some "excel"
  else if pyEndsWith fn ".docx" || pyEndsWith fn ".doc" then some "word"
  else none

/-- Amended decision order of C5, written from the claim's words with the
corrections the code forces: the probe reads the first line (not the first
non-empty line); the delimited-text case excludes only an opening brace,
so a bracket-opened line containing a comma is delimited-text; the
remaining brace or bracket openers are object-notation; a markup opener is
any line beginning with the angle bracket; everything else is free text. -/
def amendedDetect (filename content : String) : String :=
  match extensionTag filename with
  | some t => t
  | none =>
    let first := firstLine content
    if pyStartsWith first "ZHV|" || pyStartsWith first "ZHD|" then "uff"
    else if pyContainsChar first ',' && !pyStartsWith first "\x7b" then "csv"
    else if pyStartsWith first "\x7b" || pyStartsWith first "[" then "json"
    else if pyStartsWith first "<" then "xml"
    else "txt"

theorem detect_ext_eq (filename content : String) (t : String)
    (hext : extensionTag filename = some t) :
    detectFileFormat filename content = t := by
  unfold extensionTag at hext
  dsimp only at hext
  unfold detectFileFormat
  dsimp only
  repeat' split at hext
  all_goals first
    | exact Option.noConfusion hext
    | (obtain rfl := Option.some.inj hext; simp_all)

theorem detect_ext_none (filename content : String)
    (hext : extensionTag filename = none) :
    detectFileFormat filename content =
      (let first := firstLine content
       if pyStartsWith first "ZHV|" || pyStartsWith first "ZHD|" then "uff"
       else if pyContainsChar first ',' && !pyStartsWith first "\x7b" then "csv"
       else if pyStartsWith first "\x7b" || pyStartsWith first "[" then "json"
       else if pyStartsWith first "<" then "xml"
       else "txt") := by
  unfold extensionTag at hext
  dsimp only at hext
  unfold detectFileFormat
  dsimp only
  repeat' split at hext
  all_goals first
    | exact Option.noConfusion hext
    | simp_all [startsWith_xml_collapse]

theorem extensionTag_mem (filename : String) (t : String)
    (hext : extensionTag filename = some t) :
    t ∈ (["uff", "csv", "json", "xml", "txt", "pdf", "excel", "word"] : List String) := by
  unfold extensionTag at hext
  dsimp only at hext
  repeat' split at hext
  all_goals first
    | exact Option.noConfusion hext
    | (obtain rfl := Option.some.inj hext; simp)

theorem sniff_mem (first : String) :
    (if pyStartsWith first "ZHV|" || pyStartsWith first "ZHD|" then "uff"
     else if pyContainsChar first ',' && !pyStartsWith first "\x7b" then "csv"
     else if pyStartsWith first "\x7b" || pyStartsWith first "[" then "json"
     else if pyStartsWith first "<" then "xml"
     else "txt") ∈ (["uff", "csv", "json", "xml", "txt", "pdf", "excel", "word"] : List String) := by
  repeat' split
  all_goals simp

theorem detect_eq_amended (filename content : String) :
    detectFileFormat filename content = amendedDetect filename content := by
  cases hext : extensionTag filename with
  | some t =>
    unfold amendedDetect
    rw [hext, detect_ext_eq filename content t hext]
  | none =>
    unfold amendedDetect
    rw [hext, detect_ext_none filename content hext]

theorem detect_mem (filename content : String) :
    detectFileFormat filename content ∈
      (["uff", "csv", "json", "xml", "txt", "pdf", "excel", "word"] : List String) := by
  cases hext : extensionTag filename with
  | some t => rw [detect_ext_eq filename content t hext]; exact extensionTag_mem filename t hext
  | none => rw [detect_ext_none filename content hext]; exact sniff_mem _

theorem dispatch_not_unsupported (fmt content : String) (ff : FlowFile) (store : Store)
    (now : PDateTime) (s : Store) (f2 : FlowFile) (fstr : String)
    (hmem : fmt ∈ (["uff", "csv", "json", "xml", "txt", "pdf", "excel", "word"] : List String)) :
    dispatchFormat fmt content ff store now ≠ .err s f2 (.unsupportedFormat fstr) := by
  intro h
  unfold dispatchFormat at h
  dsimp only at h
  repeat' split at h
  all_goals simp_all

/-- C5 counterexample: a file with an unrecognized extension whose first
line opens with a bracket and contains a comma is classified
delimited-text by the code, while the claim's decision order classifies a
bracket-opened line as object-notation. -/
theorem detect_decision_order_c5_counterexample :
    detectFileFormat "data.bin" "[1,2]" = "csv" ∧
    pyStartsWith (firstLine "[1,2]") "[" = true ∧
    pyContainsChar (firstLine "[1,2]") ',' = true ∧
    ("csv" : String) ≠ "json" := by
  refine ⟨rfl, rfl, rfl, by decide⟩

/-- C5 as amended: format classification follows the extension-first, then
first-line-probe decision order of amendedDetect — the probe reads the
first line, the delimited-text case excludes only the brace opener, markup
means any angle-bracket opener, free text is the default — the classifier
only emits the eight handled tags, and the Unsupported outcome of
parse_file is unreachable: no input produces it. -/
theorem detect_decision_order_c5 (filename content : String) (store : Store)
    (now : PDateTime) (f : String) :
    detectFileFormat filename content = amendedDetect filename content ∧
    detectFileFormat filename content ∈
      (["uff", "csv", "json", "xml", "txt", "pdf", "excel", "word"] : List String) ∧
    (universalParseInner filename content store now).2 ≠ .error (.unsupportedFormat f) := by
  refine ⟨detect_eq_amended filename content, detect_mem filename content, ?_⟩
  intro h
  unfold universalParseInner at h
  dsimp only at h
  split at h
  · simp at h
  · split at h
    · simp at h
    · rename_i heq
      simp only [Except.error.injEq] at h
      subst h
      exact dispatch_not_unsupported _ _ _ _ _ _ _ _ (detect_mem filename content) heq

/-- C7: a line whose record-type token is unrecognized, or whose field
count is below its type's minimum, is a complete no-op for the strict
parser — no partial field extraction, no entity effect, no context change
— and deleting such a line from a file leaves the parse of every other
line, and hence every entity they imply, unchanged. -/
theorem strict_line_tolerance_c7 (st : PState) (line : String)
    (h : (let fields := pySplitChar '|' (pyStrip line)
          let t := pyStrip (fields.headD "")
          t ∉ (["ZHD", "026", "028", "029", "ZTR"] : List String) ∨
          (t = "ZHD" ∧ fields.length < 8) ∨
          (t = "026" ∧ fields.length < 3) ∨
          (t = "028" ∧ fields.length < 12) ∨
          (t = "029" ∧ fields.length < 8) ∨
          (t = "ZTR" ∧ fields.length < 3))) :
    strictParseRecord st (pyStrip line) = st ∧
    ∀ (init : PState) (xs ys : List String),
      runLines strictParseRecord init (xs ++ line :: ys)
        = runLines strictParseRecord init (xs ++ ys) := by
  have noop : ∀ s : PState, strictParseRecord s (pyStrip line) = s := by
    intro s
    unfold strictParseRecord
    dsimp only
    split
    · rfl
    · rcases h with hun | ⟨ht, hlen⟩ | ⟨ht, hlen⟩ | ⟨ht, hlen⟩ | ⟨ht, hlen⟩ | ⟨ht, hlen⟩
      · simp only [List.mem_cons, List.mem_singleton, not_or] at hun
        obtain ⟨h1, h2, h3, h4, h5⟩ := hun
        rw [if_neg h1, if_neg h2, if_neg h3, if_neg h4, if_neg h5.1]
      · rw [if_pos ht]
        simp [strictParseZHD, hlen]
      · rw [ht, if_neg (by decide), if_pos rfl]
        simp [strictParse026, hlen]
      · rw [ht, if_neg (by decide), if_neg (by decide), if_pos rfl]
        simp [strictParse028, hlen]
      · rw [ht, if_neg (by decide), if_neg (by decide), if_neg (by decide), if_pos rfl]
        simp [strictParse029, hlen]
      · rw [ht, if_neg (by decide), if_neg (by decide), if_neg (by decide),
          if_neg (by decide), if_pos rfl]
        simp [strictParseZTR]
  refine ⟨noop st, ?_⟩
  intro init xs ys
  unfold runLines
  rw [List.foldl_append, List.foldl_append, List.foldl_cons]
  congr 1
  dsimp only
  split
  · rfl
  · exact noop _

/-- Witness for C7: an unrecognized record-type line inserted between two
well-formed lines changes nothing. -/
theorem strict_line_tolerance_c7_witness :
    strictParseRecord (initPState exStore none exNow) (pyStrip "XYZ|1|2")
        = initPState exStore none exNow ∧
    runLines strictParseRecord (initPState exStore none exNow)
        (["026|1200023305967|V"] ++ "XYZ|1|2" :: ["ZTR|1|X"])
      = runLines strictParseRecord (initPState exStore none exNow)
        (["026|1200023305967|V"] ++ ["ZTR|1|X"]) := by
  obtain ⟨h1, h2⟩ := strict_line_tolerance_c7 (initPState exStore none exNow) "XYZ|1|2"
    (by decide)
  exact ⟨h1, h2 _ _ _⟩

/-- C9: no parser mutates an existing Meter row's serial_number, mpan,
meter_type or created_date. The strict and fallback grammar dispatchers
and the universal extractor only ever append meter rows, leaving every
existing row untouched (flow-file pointer included); the legacy
D0010Parser's meter handler — the one place an existing row is written —
preserves those four fields and reassigns only the flow-file
back-pointer. -/
theorem meter_first_writer_wins_c9 :
    (∀ (st : PState) (line : String),
      ∃ t, (strictParseRecord st line).store.meters = st.store.meters ++ t) ∧
    (∀ (st : PState) (line : String),
      ∃ t, (fallbackParseRecord st line).store.meters = st.store.meters ++ t) ∧
    (∀ (st : UniState) (mpan serial value : String) (date : Option String),
      ∃ t, (createMeterData st mpan serial value date).store.meters
        = st.store.meters ++ t) ∧
    (∀ (ls : LegacyState) (fields : List String), ∀ m ∈ ls.store.meters,
      ∃ m' ∈ (legacyParse028 ls fields).store.meters,
        m'.serial_number = m.serial_number ∧ m'.mpan = m.mpan ∧
        m'.meter_type = m.meter_type ∧ m'.created_date = m.created_date) := by
  refine ⟨strictParseRecord_meters, fallbackParseRecord_meters, createMeterData_meters, ?_⟩
  intro ls fields m hm
  unfold legacyParse028
  dsimp only
  repeat' split
  all_goals first
    | exact ⟨m, hm, rfl, rfl, rfl, rfl⟩
    | exact ⟨m, List.mem_append_left _ hm, rfl, rfl, rfl, rfl⟩
    | (refine ⟨_, List.mem_map_of_mem _ hm, ?_⟩
       dsimp only
       split
       all_goals exact ⟨rfl, rfl, rfl, rfl⟩)

/-- Existing meter row used by the C9 witness. -/
def c9Meter : Meter := ⟨"SER1", "MP1", "E", some 1, exNow⟩

/-- Legacy parser state already holding that meter, inside a later file
import. -/
def c9Legacy : LegacyState :=
  ⟨⟨[], [c9Meter], [], 2⟩, Stats.init, none, some "MP2", none, exNow⟩

/-- Witness for C9: the legacy meter handler processes a later record for
the same serial and the row keeps its first-writer fields. -/
theorem meter_first_writer_wins_c9_witness :
    ∃ m' ∈ (legacyParse028 c9Legacy (pySplitChar '|' "028|SER1|C")).store.meters,
      m'.serial_number = c9Meter.serial_number ∧ m'.mpan = c9Meter.mpan ∧
      m'.meter_type = c9Meter.meter_type ∧ m'.created_date = c9Meter.created_date :=
  meter_first_writer_wins_c9.2.2.2 c9Legacy (pySplitChar '|' "028|SER1|C") c9Meter (by decide)

/-- Strict parser state inside an import with an established current
metering point, used by the C2 and C6 concrete runs. -/
def c2State : PState :=
  { store := exStore, stats := Stats.init, ffObj := none,
    currentMpan := some "1200023305967", currentMeterSerial := none,
    currentRegisterId := none, now := exNow }

/-- Meter-detail line: previous date 20160221, current reading 100.0 on
20160223. -/
def c2L1 : String := "028|01|T|kWh|SER1|A|20160221|000000|20160223|000000|100.0|N"

/-- Meter-detail line with the same previous date but a different current
reading: its placeholder previous reading maps to the same natural-key
tuple as the first line's. -/
def c2L2 : String := "028|01|T|kWh|SER1|A|20160221|000000|20160224|000000|200.0|N"

/-- C2 counterexample: two lines map to the same placeholder natural-key
tuple (meter SER1, register 01, the previous timestamp, value 0). The
second occurrence stores no second row — but it does not increment
duplicates_skipped either (the counter stays at its previous value 0),
contradicting the claim; a third line duplicating a current reading shows
the counter does increment on that path, and only there. -/
theorem natural_key_dedup_c2_counterexample :
    (let s1 := strictParseRecord c2State c2L1
     let s2 := strictParseRecord s1 c2L2
     let s3 := strictParseRecord s2 c2L1
     (s1.store.readings.filter (fun r => r.reading_value = decOfInt 0)).length = 1 ∧
     (s2.store.readings.filter (fun r => r.reading_value = decOfInt 0)).length = 1 ∧
     s2.stats.duplicates_skipped = s1.stats.duplicates_skipped ∧
     s1.stats.duplicates_skipped = 0 ∧
     s3.stats.duplicates_skipped = 1 ∧
     s3.store.readings.length = 3) := by
  decide

/-- C2 as amended: at most one RegisterReading row per natural-key tuple
is ever stored — every parser dispatch (strict, fallback, generic
extractor) preserves natural-key uniqueness, and an upsert that finds the
tuple already stored returns the store unchanged with created false; the
duplicates_skipped increment happens on the current-reading, 029, 030 and
generic paths but not on the 028 previous-reading placeholder path, which
skips its duplicate silently (the counterexample exhibits this). -/
theorem natural_key_dedup_c2 :
    (∀ (st : PState) (line : String), NoDupKeys st.store.readings →
        NoDupKeys (strictParseRecord st line).store.readings) ∧
    (∀ (st : PState) (line : String), NoDupKeys st.store.readings →
        NoDupKeys (fallbackParseRecord st line).store.readings) ∧
    (∀ (st : UniState) (mpan serial value : String) (date : Option String),
        NoDupKeys st.store.readings →
        NoDupKeys (createMeterData st mpan serial value date).store.readings) ∧
    (∀ (s : Store) (serial reg : String) (dt : PDateTime) (v : DecVal) (rt : String)
        (ff : Option Nat) (r : Reading),
        s.readings.find? (fun r => r.meter_serial = serial ∧ r.register_id = reg ∧
            r.reading_date = dt ∧ r.reading_value = v) = some r →
        getOrCreateReading s serial reg dt v rt ff = (s, false)) :=
  ⟨strictParseRecord_nodup, fallbackParseRecord_nodup, createMeterData_nodup,
    fun s serial reg dt v rt ff r h => gocReading_dup s serial reg dt v rt ff r h⟩

/-- Witness for C2: the uniqueness invariant carried through a concrete
028 dispatch from an empty store. -/
theorem natural_key_dedup_c2_witness :
    NoDupKeys (strictParseRecord c2State c2L1).store.readings :=
  natural_key_dedup_c2.1 c2State c2L1 List.Pairwise.nil

/-- Extraction tuple of one free-text line according to C8 as written:
try pipe, tab, comma, whitespace in priority order and use the first
candidate whose split has at least 3 fields. Defined from the claim's
words only to exhibit the counterexample against the code. -/
def txtClaimedExtract (rawLine : String) :
    Option (String × String × String × Option String) :=
  let line := pyStrip rawLine
  if line = "" then none
  else
    let candidates :=
      [pySplitChar '|' line, pySplitChar '\t' line, pySplitChar ',' line, pySplitWs line]
    match candidates.find? (fun p => 3 ≤ p.length) with
    | some parts =>
      some (pyStrip (parts.getD 0 ""), pyStrip (parts.getD 1 ""), pyStrip (parts.getD 2 ""),
        if 3 < parts.length then some (pyStrip (parts.getD 3 "")) else none)
    | none => none

/-- Amended per-line extraction of C8: the delimiter is chosen by
presence — pipe if the line contains one, else tab, else comma, else
whitespace — only that one split is attempted, and a tuple is extracted
iff that split has at least 3 fields whose first three are non-empty
after stripping. -/
def txtAmendedExtract (rawLine : String) :
    Option (String × String × String × Option String) :=
  let line := pyStrip rawLine
  if line = "" then none
  else
    let parts :=
      if pyContainsChar line '|' then pySplitChar '|' line
      else if pyContainsChar line '\t' then pySplitChar '\t' line
      else if pyContainsChar line ',' then pySplitChar ',' line
      else pySplitWs line
    if 3 ≤ parts.length then
      let m := pyStrip (parts.getD 0 "")
      let s := pyStrip (parts.getD 1 "")
      let v := pyStrip (parts.getD 2 "")
      if m ≠ "" ∧ s ≠ "" ∧ v ≠ "" then
        some (m, s, v, if 3 < parts.length then some (pyStrip (parts.getD 3 "")) else none)
      else none
    else none

/-- Universal parser state over the empty store, used by concrete C8
runs. -/
def c8Uni : UniState := ⟨exStore, Stats.init, none, exNow⟩

/-- C8 counterexample: on a line containing one pipe and several spaces,
the pipe split has fewer than 3 fields while the whitespace split has 4,
so the claim's rule extracts a tuple — but the code, having chosen pipe by
presence, extracts nothing and leaves the state untouched, although the
claimed extraction would have created a meter. -/
theorem txt_delimiter_choice_c8_counterexample :
    (pySplitChar '|' (pyStrip "a|b c d e")).length < 3 ∧
    3 ≤ (pySplitWs (pyStrip "a|b c d e")).length ∧
    txtClaimedExtract "a|b c d e" = some ("a|b", "c", "d", some "e") ∧
    txtLineStep c8Uni "a|b c d e" = c8Uni ∧
    createMeterData c8Uni "a|b" "c" "d" (some "e") ≠ c8Uni := by
  decide

/-- C8 as amended: for every line of a free-text file, the delimiter is
chosen per line by presence (pipe, else tab, else comma, else whitespace);
only the chosen delimiter's split is attempted, and the line yields an
entity-creating tuple exactly when that split has at least 3 fields with
the first three non-empty — as captured by txtAmendedExtract. -/
theorem txt_delimiter_choice_c8 (st : UniState) (rawLine : String) :
    txtLineStep st rawLine =
      (match txtAmendedExtract rawLine with
       | some (m, s, v, d) => createMeterData st m s v d
       | none => st) := by
  rcases h : txtAmendedExtract rawLine with _ | x
  · unfold txtAmendedExtract at h
    dsimp only at h
    unfold txtLineStep txtExtractParts
    dsimp only
    repeat' split at h
    all_goals first
      | exact Option.noConfusion h
      | simp_all
  · unfold txtAmendedExtract at h
    dsimp only at h
    unfold txtLineStep txtExtractParts
    dsimp only
    repeat' split at h
    all_goals first
      | exact Option.noConfusion h
      | (obtain rfl := Option.some.inj h; simp_all)
    all_goals rw [if_neg (by omega)]

theorem gocReading_mem' (s : Store) (serial reg : String) (dt : PDateTime)
    (v : DecVal) (rt : String) (ff : Option Nat) :
    ∃ r ∈ (getOrCreateReading s serial reg dt v rt ff).1.readings,
      r.meter_serial = serial ∧ r.register_id = reg ∧
      r.reading_date = dt ∧ r.reading_value = v := by
  obtain ⟨r, hr, hk⟩ := gocReading_mem s serial reg dt v rt ff
  simp only [rKey, Prod.mk.injEq] at hk
  exact ⟨r, hr, hk.1, hk.2.1, hk.2.2.1, hk.2.2.2⟩

/-- Meter-detail line whose previous and current date strings are equal
while the previous and current timestamps differ (13:00 versus 12:00). -/
def c6Line : String := "028|01|T|kWh|SER1|A|20160222|130000|20160222|120000|100.5|N"

/-- C6 counterexample: the record carries a previous date/time distinct
from the current date/time (both parse, 13:00 versus 12:00 of the same
day), yet no placeholder reading is created — only the current reading is
stored and no zero-valued row exists — because the code compares the date
strings only, not the timestamps. -/
theorem placeholder_previous_reading_c6_counterexample :
    (let st' := strictParseRecord c2State c6Line
     (parseDateTime14 ("20160222" ++ "130000")).isSome = true ∧
     parseDateTime14 ("20160222" ++ "130000") ≠ parseDateTime14 ("20160222" ++ "120000") ∧
     st'.store.readings.length = 1 ∧
     (st'.store.readings.filter (fun r => r.reading_value = decOfInt 0)).length = 0) := by
  decide

/-- C6 as amended: for a meter-detail record with enough fields, a
non-empty serial and current value and an established metering point, the
zero-valued Estimated placeholder previous reading is upserted exactly
when the previous date and previous time fields are non-empty, the
previous date string differs from the current date string (dates are
compared as strings, times are not compared), and the combined previous
date and time parse as a timestamp; otherwise at most the current reading
is added and no placeholder is created. -/
theorem placeholder_previous_reading_c6 (st : PState) (fields : List String)
    (hlen : ¬ fields.length < 12)
    (hsv : ¬ (fld fields 4 = "" ∨ fld fields 10 = ""))
    (mpan : String) (hmpan : st.currentMpan = some mpan) :
    (∀ pdt, fld fields 6 ≠ "" → fld fields 7 ≠ "" → fld fields 6 ≠ fld fields 8 →
        parseDateTime14 (fld fields 6 ++ fld fields 7) = some pdt →
        ∃ r ∈ (strictParse028 st fields).store.readings,
          r.meter_serial = fld fields 4 ∧ r.register_id = fld fields 1 ∧
          r.reading_date = pdt ∧ r.reading_value = decOfInt 0) ∧
    (¬ (fld fields 6 ≠ "" ∧ fld fields 7 ≠ "" ∧ fld fields 6 ≠ fld fields 8) →
        (strictParse028 st fields).store.readings.length
          ≤ st.store.readings.length + 1) := by
  constructor
  · intro pdt h6 h7 h68 hparse
    unfold strictParse028
    dsimp only
    rw [if_neg hlen, hmpan]
    dsimp only
    rw [if_neg hsv]
    try dsimp only
    rw [if_pos ⟨h6, h7, h68⟩, hparse]
    dsimp only
    exact gocReading_mem' _ _ _ _ _ _ _
  · intro hnc
    unfold strictParse028
    dsimp only
    rw [if_neg hlen, hmpan]
    dsimp only
    rw [if_neg hsv]
    try dsimp only
    rw [if_neg hnc]
    rcases hd : parseDecimal (fld fields 10) with _ | v
    · dsimp only
      rw [gocMeter_readings]
      exact Nat.le_succ _
    · dsimp only
      calc (getOrCreateReading
              (getOrCreateMeter st.store (fld fields 4) mpan "E"
                (st.ffObj.map (fun f => f.id)) (meterCreationDate st)).1
              (fld fields 4) (fld fields 1) _ v (fld fields 5)
              (st.ffObj.map (fun f => f.id))).1.readings.length
          ≤ (getOrCreateMeter st.store (fld fields 4) mpan "E"
                (st.ffObj.map (fun f => f.id)) (meterCreationDate st)).1.readings.length + 1 :=
            gocReading_len _ _ _ _ _ _ _
        _ = st.store.readings.length + 1 := by rw [gocMeter_readings]

/-- Witness for C6: the first C2 line carries a distinct previous date, so
the zero-valued placeholder previous reading is present after the
dispatch. -/
theorem placeholder_previous_reading_c6_witness :
    ∃ r ∈ (strictParse028 c2State (pySplitChar '|' c2L1)).store.readings,
      r.meter_serial = fld (pySplitChar '|' c2L1) 4 ∧
      r.register_id = fld (pySplitChar '|' c2L1) 1 ∧
      r.reading_date = ⟨2016, 2, 21, 0, 0, 0⟩ ∧
      r.reading_value = decOfInt 0 :=
  (placeholder_previous_reading_c6 c2State (pySplitChar '|' c2L1) (by decide) (by decide)
      "1200023305967" (by decide)).1 ⟨2016, 2, 21, 0, 0, 0⟩ (by decide) (by decide)
      (by decide) (by decide)

theorem map_save_append (l : List FlowFile) (ffC ffN : FlowFile) (n : Nat)
    (hwf : ∀ x ∈ l, x.id < n) (hC : ffC.id = n) (hN : ffN.id = n) :
    (l ++ [ffC]).map (fun x => if x.id = ffN.id then ffN else x) = l ++ [ffN] := by
  rw [List.map_append]
  congr 1
  · conv_rhs => rw [← List.map_id l]
    refine List.map_congr_left (fun x hx => ?_)
    have hx' : x.id ≠ ffN.id := by
      rw [hN]
      exact Nat.ne_of_lt (hwf x hx)
    simp [hx']
  · simp [hC, hN]

theorem createFlowFile_flowFiles (s : Store) (fn ty st cs : String) :
    (createFlowFile s fn ty st cs).1.flowFiles
      = s.flowFiles ++ [(createFlowFile s fn ty st cs).2] := rfl

theorem createFlowFile_id (s : Store) (fn ty st cs : String) :
    (createFlowFile s fn ty st cs).2.id = s.nextId := rfl

theorem createFlowFile_filename (s : Store) (fn ty st cs : String) :
    (createFlowFile s fn ty st cs).2.filename = fn := rfl

theorem createFlowFile_checksum (s : Store) (fn ty st cs : String) :
    (createFlowFile s fn ty st cs).2.checksum = some cs := rfl

theorem dispatch_err_not_dup (fmt content : String) (ff : FlowFile) (store : Store)
    (now : PDateTime) (s : Store) (f2 : FlowFile) (e : ParseError)
    (h : dispatchFormat fmt content ff store now = .err s f2 e) :
    ∀ p, e ≠ ParseError.duplicateContent p := by
  intro p hp
  subst hp
  revert h
  unfold dispatchFormat
  dsimp only
  repeat' split
  all_goals intro h
  all_goals simp_all

theorem inner_creates_row (filename content : String) (store : Store) (now : PDateTime)
    (h : store.flowFiles.find? (fun ff => ff.checksum = some (checksumOf content)) = none)
    (hwf : ∀ ff ∈ store.flowFiles, ff.id < store.nextId) :
    ∃ ffNew, (universalParseInner filename content store now).1.flowFiles
        = store.flowFiles ++ [ffNew] ∧ ffNew.filename = filename ∧
      ffNew.checksum = some (checksumOf content) := by
  unfold universalParseInner
  dsimp only
  rw [h]
  dsimp only
  set Cr := createFlowFile store filename (pyToUpper (detectFileFormat filename content))
    "PROCESSING" (checksumOf content) with hCr
  have hflC : Cr.1.flowFiles = store.flowFiles ++ [Cr.2] := by rw [hCr]; rfl
  have hidC : Cr.2.id = store.nextId := by rw [hCr]; rfl
  have hnameC : Cr.2.filename = filename := by rw [hCr]; rfl
  have hcsC : Cr.2.checksum = some (checksumOf content) := by rw [hCr]; rfl
  have hinv := dispatch_inv (detectFileFormat filename content) content Cr.2 Cr.1 now
  cases hdisp : dispatchFormat (detectFileFormat filename content) content Cr.2 Cr.1 now with
  | ok s2 f2 stats =>
    rw [hdisp] at hinv
    dsimp only [doutStore, doutFF] at hinv
    obtain ⟨hfl, hcore⟩ := hinv
    simp only [ffCore, Prod.mk.injEq] at hcore
    obtain ⟨hid, hname, hty, hcs⟩ := hcore
    dsimp only
    refine ⟨{ f2 with record_count := stats.meters_created + stats.readings_created, status := "IMPORTED" }, ?_, ?_, ?_⟩
    · unfold saveFlowFile
      dsimp only
      rw [hfl, hflC]
      exact map_save_append store.flowFiles Cr.2
        { f2 with record_count := stats.meters_created + stats.readings_created, status := "IMPORTED" }
        store.nextId hwf hidC (by show f2.id = store.nextId; rw [hid, hidC])
    · show f2.filename = filename
      rw [hname, hnameC]
    · show f2.checksum = some (checksumOf content)
      rw [hcs, hcsC]
  | err s2 f2 e =>
    rw [hdisp] at hinv
    dsimp only [doutStore, doutFF] at hinv
    obtain ⟨hfl, hcore⟩ := hinv
    simp only [ffCore, Prod.mk.injEq] at hcore
    obtain ⟨hid, hname, hty, hcs⟩ := hcore
    dsimp only
    refine ⟨{ f2 with status := "ERROR" }, ?_, ?_, ?_⟩
    · unfold saveFlowFile
      dsimp only
      rw [hfl, hflC]
      exact map_save_append store.flowFiles Cr.2 { f2 with status := "ERROR" }
        store.nextId hwf hidC (by show f2.id = store.nextId; rw [hid, hidC])
    · show f2.filename = filename
      rw [hname, hnameC]
    · show f2.checksum = some (checksumOf content)
      rw [hcs, hcsC]

theorem inner_not_dup_error (filename content : String) (store : Store) (now : PDateTime)
    (h : store.flowFiles.find? (fun ff => ff.checksum = some (checksumOf content)) = none) :
    ∀ p, (universalParseInner filename content store now).2
      ≠ .error (.duplicateContent p) := by
  intro p hp
  unfold universalParseInner at hp
  dsimp only at hp
  rw [h] at hp
  dsimp only at hp
  set Cr := createFlowFile store filename (pyToUpper (detectFileFormat filename content))
    "PROCESSING" (checksumOf content) with hCr
  cases hdisp : dispatchFormat (detectFileFormat filename content) content Cr.2 Cr.1 now with
  | ok s2 f2 stats =>
    rw [hdisp] at hp
    simp at hp
  | err s2 f2 e =>
    rw [hdisp] at hp
    simp only [Except.error.injEq] at hp
    exact dispatch_err_not_dup _ _ _ _ _ _ _ _ hdisp p hp

theorem inner_txt_ok (filename content : String) (store : Store) (now : PDateTime)
    (h : store.flowFiles.find? (fun ff => ff.checksum = some (checksumOf content)) = none)
    (hfmt : detectFileFormat filename content = "txt") :
    ∃ ffRes stats, (universalParseInner filename content store now).2
        = .ok (ffRes, stats) ∧ ffRes.filename = filename := by
  unfold universalParseInner
  dsimp only
  rw [h]
  dsimp only
  rw [hfmt]
  set Cr := createFlowFile store filename (pyToUpper "txt") "PROCESSING"
    (checksumOf content) with hCr
  have hd : dispatchFormat "txt" content Cr.2 Cr.1 now =
      DispatchOut.ok (txtBranch ⟨Cr.1, Stats.init, some Cr.2, now⟩ content).store
        ((txtBranch ⟨Cr.1, Stats.init, some Cr.2, now⟩ content).ffObj.getD Cr.2)
        (txtBranch ⟨Cr.1, Stats.init, some Cr.2, now⟩ content).stats := rfl
  rw [hd]
  dsimp only
  refine ⟨_, _, rfl, ?_⟩
  show ((txtBranch ⟨Cr.1, Stats.init, some Cr.2, now⟩ content).ffObj.getD Cr.2).filename
    = filename
  rw [(txtBranch_inv _ _).2]
  rfl

/-- C10: filename plays no role in duplicate detection. The fingerprint is
injective on content; an import is rejected as a duplicate exactly when
some stored FlowFile row carries the content's checksum, regardless of
filename; when no row does, the attempt is never rejected as a duplicate
and a new FlowFile row bearing the supplied filename (and the content's
checksum) is appended next to all existing rows — so a second file with
the same filename but different bytes yields a second row with that
filename — and with free-text content the second import returns
successfully. -/
theorem checksum_gates_not_filename_c10 (store : Store) (filename content : String)
    (now : PDateTime) :
    (∀ c1 c2 : String, checksumOf c1 = checksumOf c2 ↔ c1 = c2) ∧
    (∀ prior, store.flowFiles.find?
        (fun ff => ff.checksum = some (checksumOf content)) = some prior →
      universalParseInner filename content store now
        = (store, .error (.duplicateContent prior.filename))) ∧
    (store.flowFiles.find? (fun ff => ff.checksum = some (checksumOf content)) = none →
      (∀ ff ∈ store.flowFiles, ff.id < store.nextId) →
      (∃ ffNew, (universalParseInner filename content store now).1.flowFiles
          = store.flowFiles ++ [ffNew] ∧ ffNew.filename = filename ∧
          ffNew.checksum = some (checksumOf content)) ∧
      (∀ p, (universalParseInner filename content store now).2
        ≠ .error (.duplicateContent p))) ∧
    (store.flowFiles.find? (fun ff => ff.checksum = some (checksumOf content)) = none →
      detectFileFormat filename content = "txt" →
      ∃ ffRes stats, (universalParseInner filename content store now).2
          = .ok (ffRes, stats) ∧ ffRes.filename = filename) := by
  refine ⟨fun c1 c2 => Iff.rfl, ?_, ?_, ?_⟩
  · intro prior hp
    unfold universalParseInner
    dsimp only
    rw [hp]
  · intro h hwf
    exact ⟨inner_creates_row filename content store now h hwf,
      inner_not_dup_error filename content store now h⟩
  · exact inner_txt_ok filename content store now

/-- Store already holding an import of the same filename with different
bytes, used by the C10 witness. -/
def c10Store : Store :=
  ⟨[{ id := 1, filename := "data.txt", file_type := "TXT", record_count := 1,
      status := "IMPORTED", checksum := some "OLD CONTENT", sequence_number := "",
      version := "", rec_type := "", sender := "", receiver := "",
      creation_date := none }], [], [], 2⟩

/-- Witness for C10: re-importing the filename data.txt with different
bytes passes the gate, appends a second row with the same filename, and
succeeds. -/
theorem checksum_gates_not_filename_c10_witness :
    (∃ ffNew, (universalParseInner "data.txt" "MP1|SER1|7.5" c10Store exNow).1.flowFiles
        = c10Store.flowFiles ++ [ffNew] ∧ ffNew.filename = "data.txt" ∧
        ffNew.checksum = some (checksumOf "MP1|SER1|7.5")) ∧
    (∃ ffRes stats, (universalParseInner "data.txt" "MP1|SER1|7.5" c10Store exNow).2
        = .ok (ffRes, stats) ∧ ffRes.filename = "data.txt") :=
  ⟨((checksum_gates_not_filename_c10 c10Store "data.txt" "MP1|SER1|7.5" exNow).2.2.1
      (by decide) (by decide)).1,
    (checksum_gates_not_filename_c10 c10Store "data.txt" "MP1|SER1|7.5" exNow).2.2.2
      (by decide) (by decide)⟩

/-- Closed instance of the C5 amended theorem at a concrete input. -/
theorem detect_decision_order_c5_witness :
    detectFileFormat "data.bin" "hello" = amendedDetect "data.bin" "hello" ∧
    (universalParseInner "data.bin" "hello" exStore exNow).2
      ≠ .error (.unsupportedFormat "bin") :=
  ⟨(detect_decision_order_c5 "data.bin" "hello" exStore exNow "bin").1,
    (detect_decision_order_c5 "data.bin" "hello" exStore exNow "bin").2.2⟩

/-- Closed instance of the C8 amended theorem at a concrete line. -/
theorem txt_delimiter_choice_c8_witness :
    txtLineStep c8Uni "MP1|SER1|7.5" =
      (match txtAmendedExtract "MP1|SER1|7.5" with
       | some (m, s, v, d) => createMeterData c8Uni m s v d
       | none => c8Uni) :=
  txt_delimiter_choice_c8 c8Uni "MP1|SER1|7.5"
